import Mathlib

/-!
# Verification of the nbgrader persistence and aggregation core

A shallow embedding of `nbgrader/api.py`: the entity rows, the derived
aggregate layer (SQL `column_property` expressions translated to pure
functions over the row lists), and the `Gradebook` facade operations.

Conventions of the embedding:
- Opaque identifiers (uuid hex strings and primary keys in the source) are
  modelled as `Nat`; names used as natural keys are likewise opaque and
  modelled as `Nat`.
- SQL `Float` score columns are modelled as `Rat` (exact arithmetic); the
  claims under study are structural, not about rounding.
- `DateTime` and `Interval` columns are modelled as seconds (`Int`).
- Nullable columns are `Option`; SQL three-valued logic is translated at
  each use site: a boolean expression that evaluates to SQL NULL is not
  true, hence maps to `false` when the value is consumed in a `WHERE` or
  `EXISTS` context.
- A SQL aggregate `coalesce(sum(e), 0.0)` over a join is a `List.sum` over
  the corresponding filtered/joined list (an empty list sums to 0).
- A scalar subquery with no aggregate (e.g. `select GradeCell.max_score
  where ...`) yields `Option` (NULL when no row matches), via `List.find?`.
-/

/-- `Enum("code", "markdown")` of the grade/solution cell tables.  The
spec's "written" cut is the `markdown` cell type. -/
inductive CellType where
  | code
  | markdown
deriving DecidableEq, Repr

instance : BEq CellType := ⟨fun a b => decide (a = b)⟩

theorem CellType.beq_iff {a b : CellType} : (a == b) = true ↔ a = b := by
  simp [BEq.beq]

/-- Table `assignment`: id, unique name, nullable duedate. -/
structure AssignmentRow where
  id : Nat
  name : Nat
  duedate : Option Int
deriving DecidableEq, Repr

/-- Table `notebook`: unique (name, assignment_id). -/
structure NotebookRow where
  id : Nat
  name : Nat
  assignment_id : Nat
deriving DecidableEq, Repr

/-- Table `grade_cell`: unique (name, notebook_id); non-null max_score and
cell_type. -/
structure GradeCellRow where
  id : Nat
  name : Nat
  max_score : Rat
  cell_type : CellType
  notebook_id : Nat
deriving DecidableEq, Repr

/-- Table `solution_cell`: unique (name, notebook_id); non-null cell_type.
`cell_type` is nullable here in the embedding so that an `update_or_create`
call can attempt to null it; the commit-time constraint check rejects
`none`. -/
structure SolutionCellRow where
  id : Nat
  name : Nat
  notebook_id : Nat
  cell_type : Option CellType
deriving DecidableEq, Repr

/-- Table `student`: string primary key (opaque, modelled as `Nat`). -/
structure StudentRow where
  id : Nat
  first_name : Option Nat
  last_name : Option Nat
  email : Option Nat
deriving DecidableEq, Repr

/-- Table `submitted_assignment`: unique (assignment_id, student_id);
nullable timestamp (seconds) and extension (interval in seconds). -/
structure SubmittedAssignmentRow where
  id : Nat
  assignment_id : Nat
  student_id : Nat
  timestamp : Option Int
  extension : Option Int
deriving DecidableEq, Repr

/-- Table `submitted_notebook`: unique (notebook_id, assignment_id) where
`assignment_id` is the foreign key to `submitted_assignment`. -/
structure SubmittedNotebookRow where
  id : Nat
  notebook_id : Nat
  assignment_id : Nat
deriving DecidableEq, Repr

/-- Table `grade`: unique (cell_id, notebook_id) where `notebook_id` is the
foreign key to `submitted_notebook`; nullable auto_score / manual_score. -/
structure GradeRow where
  id : Nat
  cell_id : Nat
  notebook_id : Nat
  auto_score : Option Rat
  manual_score : Option Rat
deriving DecidableEq, Repr

/-- Table `comment`: unique (cell_id, notebook_id); nullable text column
`comment`. -/
structure CommentRow where
  id : Nat
  cell_id : Nat
  notebook_id : Nat
  comment : Option String
deriving DecidableEq, Repr

/-- The relational store: one list of rows per table, plus the fresh-id
counter standing in for `uuid4`. -/
structure DB where
  assignments : List AssignmentRow
  notebooks : List NotebookRow
  grade_cells : List GradeCellRow
  solution_cells : List SolutionCellRow
  students : List StudentRow
  submitted_assignments : List SubmittedAssignmentRow
  submitted_notebooks : List SubmittedNotebookRow
  grades : List GradeRow
  comments : List CommentRow
  next_id : Nat
deriving DecidableEq, Repr

/-- The empty database. -/
def DB.empty : DB :=
  ⟨[], [], [], [], [], [], [], [], [], 0⟩

namespace Grade

/-- `Grade.score = case([(manual_score != None, manual_score),
(auto_score != None, auto_score)], else_=0.0)`. -/
def score (g : GradeRow) : Rat :=
  match g.manual_score with
  | some m => m
  | none =>
    match g.auto_score with
    | some a => a
    | none => 0

/-- `Grade.needs_manual_grade = (auto_score == None) & (manual_score == None)`. -/
def needs_manual_grade (g : GradeRow) : Bool :=
  g.auto_score.isNone && g.manual_score.isNone

/-- `Grade.max_score = select([GradeCell.max_score]).where(Grade.cell_id ==
GradeCell.id)` — a scalar subquery, NULL when the cell is missing. -/
def max_score (db : DB) (g : GradeRow) : Option Rat :=
  (db.grade_cells.find? (fun c => g.cell_id == c.id)).map (fun c => c.max_score)

/-- `Grade.cell_type = select([GradeCell.cell_type]).where(Grade.cell_id ==
GradeCell.id)`. -/
def cell_type (db : DB) (g : GradeRow) : Option CellType :=
  (db.grade_cells.find? (fun c => g.cell_id == c.id)).map (fun c => c.cell_type)

/-- `Grade.failed_tests = (Grade.auto_score < Grade.max_score) &
(Grade.cell_type == "code")`.  With SQL NULL semantics: when `auto_score`
is NULL (or the cell is missing) the comparison is NULL, hence not true. -/
def failed_tests (db : DB) (g : GradeRow) : Bool :=
  (match g.auto_score, max_score db g with
   | some a, some m => decide (a < m)
   | _, _ => false)
  && decide (cell_type db g = some CellType.code)

end Grade

namespace Notebook

/-- `Notebook.max_score = select([coalesce(sum(GradeCell.max_score), 0.0)])
.where(GradeCell.notebook_id == Notebook.id)`. -/
def max_score (db : DB) (nb : NotebookRow) : Rat :=
  ((db.grade_cells.filter (fun c => c.notebook_id == nb.id)).map
    (fun c => c.max_score)).sum

/-- `Notebook.max_written_score`: same sum restricted to
`cell_type == "markdown"`. -/
def max_written_score (db : DB) (nb : NotebookRow) : Rat :=
  ((db.grade_cells.filter (fun c =>
    c.notebook_id == nb.id && (c.cell_type == CellType.markdown))).map
    (fun c => c.max_score)).sum

/-- `Notebook.max_code_score`: same sum restricted to `cell_type == "code"`. -/
def max_code_score (db : DB) (nb : NotebookRow) : Rat :=
  ((db.grade_cells.filter (fun c =>
    c.notebook_id == nb.id && (c.cell_type == CellType.code))).map
    (fun c => c.max_score)).sum

/-- `Notebook.needs_manual_grade = exists().where(and_(Notebook.id ==
SubmittedNotebook.notebook_id, Grade.notebook_id == SubmittedNotebook.id,
Grade.needs_manual_grade))`. -/
def needs_manual_grade (db : DB) (nb : NotebookRow) : Bool :=
  db.submitted_notebooks.any (fun sn =>
    nb.id == sn.notebook_id &&
    db.grades.any (fun g =>
      g.notebook_id == sn.id && Grade.needs_manual_grade g))

/-- `Notebook.num_submissions = select([count(SubmittedNotebook.id)])
.where(SubmittedNotebook.notebook_id == Notebook.id)`. -/
def num_submissions (db : DB) (nb : NotebookRow) : Nat :=
  (db.submitted_notebooks.filter (fun sn => sn.notebook_id == nb.id)).length

end Notebook

namespace SubmittedNotebook

/-- `SubmittedNotebook.score = coalesce(sum(Grade.score), 0.0) where
Grade.notebook_id == SubmittedNotebook.id`. -/
def score (db : DB) (sn : SubmittedNotebookRow) : Rat :=
  ((db.grades.filter (fun g => g.notebook_id == sn.id)).map Grade.score).sum

/-- `SubmittedNotebook.max_score = select([Notebook.max_score]).where(
SubmittedNotebook.notebook_id == Notebook.id)` — scalar subquery on the
template notebook. -/
def max_score (db : DB) (sn : SubmittedNotebookRow) : Option Rat :=
  (db.notebooks.find? (fun nb => sn.notebook_id == nb.id)).map
    (Notebook.max_score db)

/-- `SubmittedNotebook.written_score`: sum of `Grade.score` over grades of
this submitted notebook joined with their `GradeCell`, restricted to
`cell_type == "markdown"`. -/
def written_score (db : DB) (sn : SubmittedNotebookRow) : Rat :=
  ((db.grades.filter (fun g => g.notebook_id == sn.id)).flatMap (fun g =>
    (db.grade_cells.filter (fun c =>
      c.id == g.cell_id && (c.cell_type == CellType.markdown))).map
      (fun _ => Grade.score g))).sum

/-- `SubmittedNotebook.code_score`: same restricted to `cell_type == "code"`. -/
def code_score (db : DB) (sn : SubmittedNotebookRow) : Rat :=
  ((db.grades.filter (fun g => g.notebook_id == sn.id)).flatMap (fun g =>
    (db.grade_cells.filter (fun c =>
      c.id == g.cell_id && (c.cell_type == CellType.code))).map
      (fun _ => Grade.score g))).sum

/-- `SubmittedNotebook.max_written_score = select([Notebook.max_written_score])
.where(Notebook.id == SubmittedNotebook.notebook_id)`. -/
def max_written_score (db : DB) (sn : SubmittedNotebookRow) : Option Rat :=
  (db.notebooks.find? (fun nb => nb.id == sn.notebook_id)).map
    (Notebook.max_written_score db)

/-- `SubmittedNotebook.max_code_score = select([Notebook.max_code_score])
.where(Notebook.id == SubmittedNotebook.notebook_id)`. -/
def max_code_score (db : DB) (sn : SubmittedNotebookRow) : Option Rat :=
  (db.notebooks.find? (fun nb => nb.id == sn.notebook_id)).map
    (Notebook.max_code_score db)

/-- `SubmittedNotebook.needs_manual_grade = exists().where(and_(
Grade.notebook_id == SubmittedNotebook.id, Grade.needs_manual_grade))`. -/
def needs_manual_grade (db : DB) (sn : SubmittedNotebookRow) : Bool :=
  db.grades.any (fun g =>
    g.notebook_id == sn.id && Grade.needs_manual_grade g)

/-- `SubmittedNotebook.failed_tests = exists().where(and_(
Grade.notebook_id == SubmittedNotebook.id, Grade.failed_tests))`. -/
def failed_tests (db : DB) (sn : SubmittedNotebookRow) : Bool :=
  db.grades.any (fun g =>
    g.notebook_id == sn.id && Grade.failed_tests db g)

end SubmittedNotebook

namespace Assignment

/-- `Assignment.max_score = coalesce(sum(GradeCell.max_score), 0.0) where
Notebook.assignment_id == Assignment.id and GradeCell.notebook_id ==
Notebook.id`. -/
def max_score (db : DB) (a : AssignmentRow) : Rat :=
  ((db.notebooks.filter (fun nb => nb.assignment_id == a.id)).flatMap (fun nb =>
    (db.grade_cells.filter (fun c => c.notebook_id == nb.id)).map
      (fun c => c.max_score))).sum

/-- `Assignment.max_written_score`: same sum restricted to
`cell_type == "markdown"`. -/
def max_written_score (db : DB) (a : AssignmentRow) : Rat :=
  ((db.notebooks.filter (fun nb => nb.assignment_id == a.id)).flatMap (fun nb =>
    (db.grade_cells.filter (fun c =>
      c.notebook_id == nb.id && (c.cell_type == CellType.markdown))).map
      (fun c => c.max_score))).sum

/-- `Assignment.max_code_score`: same sum restricted to `cell_type == "code"`. -/
def max_code_score (db : DB) (a : AssignmentRow) : Rat :=
  ((db.notebooks.filter (fun nb => nb.assignment_id == a.id)).flatMap (fun nb =>
    (db.grade_cells.filter (fun c =>
      c.notebook_id == nb.id && (c.cell_type == CellType.code))).map
      (fun c => c.max_score))).sum

/-- `Assignment.num_submissions = select([count(SubmittedAssignment.id)])
.where(SubmittedAssignment.assignment_id == Assignment.id)`. -/
def num_submissions (db : DB) (a : AssignmentRow) : Nat :=
  (db.submitted_assignments.filter (fun sa => sa.assignment_id == a.id)).length

end Assignment

namespace SubmittedAssignment

/-- `SubmittedAssignment.score`: sum of `Grade.score` over the submission's
submitted notebooks' grades. -/
def score (db : DB) (sa : SubmittedAssignmentRow) : Rat :=
  ((db.submitted_notebooks.filter (fun sn => sn.assignment_id == sa.id)).flatMap
    (fun sn => (db.grades.filter (fun g => g.notebook_id == sn.id)).map
      Grade.score)).sum

/-- `SubmittedAssignment.max_score = select([Assignment.max_score]).where(
SubmittedAssignment.assignment_id == Assignment.id)`. -/
def max_score (db : DB) (sa : SubmittedAssignmentRow) : Option Rat :=
  (db.assignments.find? (fun a => sa.assignment_id == a.id)).map
    (Assignment.max_score db)

/-- `SubmittedAssignment.written_score`: sum over submitted notebooks of the
submission, their grades, joined to markdown grade cells. -/
def written_score (db : DB) (sa : SubmittedAssignmentRow) : Rat :=
  ((db.submitted_notebooks.filter (fun sn => sn.assignment_id == sa.id)).flatMap
    (fun sn => (db.grades.filter (fun g => g.notebook_id == sn.id)).flatMap
      (fun g => (db.grade_cells.filter (fun c =>
        c.id == g.cell_id && (c.cell_type == CellType.markdown))).map
        (fun _ => Grade.score g)))).sum

/-- `SubmittedAssignment.code_score`: same restricted to code cells. -/
def code_score (db : DB) (sa : SubmittedAssignmentRow) : Rat :=
  ((db.submitted_notebooks.filter (fun sn => sn.assignment_id == sa.id)).flatMap
    (fun sn => (db.grades.filter (fun g => g.notebook_id == sn.id)).flatMap
      (fun g => (db.grade_cells.filter (fun c =>
        c.id == g.cell_id && (c.cell_type == CellType.code))).map
        (fun _ => Grade.score g)))).sum

/-- `SubmittedAssignment.max_written_score = select([
Assignment.max_written_score]).where(Assignment.id ==
SubmittedAssignment.assignment_id)`. -/
def max_written_score (db : DB) (sa : SubmittedAssignmentRow) : Option Rat :=
  (db.assignments.find? (fun a => a.id == sa.assignment_id)).map
    (Assignment.max_written_score db)

/-- `SubmittedAssignment.max_code_score = select([Assignment.max_code_score])
.where(Assignment.id == SubmittedAssignment.assignment_id)`. -/
def max_code_score (db : DB) (sa : SubmittedAssignmentRow) : Option Rat :=
  (db.assignments.find? (fun a => a.id == sa.assignment_id)).map
    (Assignment.max_code_score db)

/-- `SubmittedAssignment.needs_manual_grade = exists().where(and_(
SubmittedNotebook.assignment_id == SubmittedAssignment.id,
Grade.notebook_id == SubmittedNotebook.id, Grade.needs_manual_grade))`. -/
def needs_manual_grade (db : DB) (sa : SubmittedAssignmentRow) : Bool :=
  db.submitted_notebooks.any (fun sn =>
    sn.assignment_id == sa.id &&
    db.grades.any (fun g =>
      g.notebook_id == sn.id && Grade.needs_manual_grade g))

end SubmittedAssignment

namespace Student

/-- `Student.score`: sum of `Grade.score` over the chain
`SubmittedAssignment.student_id == Student.id`,
`SubmittedNotebook.assignment_id == SubmittedAssignment.id`,
`Grade.notebook_id == SubmittedNotebook.id`. -/
def score (db : DB) (s : StudentRow) : Rat :=
  ((db.submitted_assignments.filter (fun sa => sa.student_id == s.id)).flatMap
    (fun sa =>
      (db.submitted_notebooks.filter (fun sn => sn.assignment_id == sa.id)).flatMap
        (fun sn => (db.grades.filter (fun g => g.notebook_id == sn.id)).map
          Grade.score))).sum

/-- `Student.max_score = select([coalesce(sum(Assignment.max_score), 0.0)])`
— note: the source has NO where-clause here, so this sums over every
assignment in the database, independent of the student. -/
def max_score (db : DB) (_s : StudentRow) : Rat :=
  (db.assignments.map (Assignment.max_score db)).sum

end Student

/-! ## C1: the score of a grade -/

/-- C1: for every Grade row, the derived score equals `manual_score` when
`manual_score` is set, otherwise `auto_score` when `auto_score` is set,
otherwise 0.0 (manual overrides automatic). -/
theorem grade_score_manual_overrides_auto (g : GradeRow) :
    (∀ m, g.manual_score = some m → Grade.score g = m) ∧
    (g.manual_score = none → ∀ a, g.auto_score = some a → Grade.score g = a) ∧
    (g.manual_score = none → g.auto_score = none → Grade.score g = 0) := by
  refine ⟨?_, ?_, ?_⟩
  · intro m hm
    simp [Grade.score, hm]
  · intro hm a ha
    simp [Grade.score, hm, ha]
  · intro hm ha
    simp [Grade.score, hm, ha]

/-- Witness for C1: a concrete grade with both scores set takes the manual
score; a concrete grade with only an auto score takes it; a concrete blank
grade scores 0. -/
theorem grade_score_manual_overrides_auto_witness :
    Grade.score ⟨0, 1, 2, some 2, some 3⟩ = 3 ∧
    Grade.score ⟨0, 1, 2, some 2, none⟩ = 2 ∧
    Grade.score ⟨0, 1, 2, none, none⟩ = 0 :=
  ⟨(grade_score_manual_overrides_auto ⟨0, 1, 2, some 2, some 3⟩).1 3 rfl,
   (grade_score_manual_overrides_auto ⟨0, 1, 2, some 2, none⟩).2.1 rfl 2 rfl,
   (grade_score_manual_overrides_auto ⟨0, 1, 2, none, none⟩).2.2 rfl rfl⟩

/-! ## C3: needs_manual_grade and its propagation -/

/-- C3: a Grade needs manual grading iff both scores are unset; a
SubmittedNotebook, SubmittedAssignment or Notebook needs manual grading iff
at least one descendant Grade does.  A descendant Grade of a
SubmittedNotebook is a grade bound to it; of a SubmittedAssignment, a grade
of one of its submitted notebooks; of a Notebook, a grade of a submitted
instance of that notebook. -/
theorem needs_manual_grade_iff (db : DB) :
    (∀ g : GradeRow, Grade.needs_manual_grade g = true ↔
      (g.auto_score = none ∧ g.manual_score = none)) ∧
    (∀ sn : SubmittedNotebookRow,
      SubmittedNotebook.needs_manual_grade db sn = true ↔
      ∃ g ∈ db.grades, g.notebook_id = sn.id ∧
        Grade.needs_manual_grade g = true) ∧
    (∀ sa : SubmittedAssignmentRow,
      SubmittedAssignment.needs_manual_grade db sa = true ↔
      ∃ g ∈ db.grades, (∃ sn ∈ db.submitted_notebooks,
        sn.assignment_id = sa.id ∧ g.notebook_id = sn.id) ∧
        Grade.needs_manual_grade g = true) ∧
    (∀ nb : NotebookRow,
      Notebook.needs_manual_grade db nb = true ↔
      ∃ g ∈ db.grades, (∃ sn ∈ db.submitted_notebooks,
        sn.notebook_id = nb.id ∧ g.notebook_id = sn.id) ∧
        Grade.needs_manual_grade g = true) := by
  refine ⟨?_, ?_, ?_, ?_⟩
  · intro g
    simp [Grade.needs_manual_grade, Option.isNone_iff_eq_none]
  · intro sn
    simp only [SubmittedNotebook.needs_manual_grade, List.any_eq_true,
      Bool.and_eq_true, beq_iff_eq]
  · intro sa
    simp only [SubmittedAssignment.needs_manual_grade, List.any_eq_true,
      Bool.and_eq_true, beq_iff_eq]
    tauto
  · intro nb
    simp only [Notebook.needs_manual_grade, List.any_eq_true,
      Bool.and_eq_true, beq_iff_eq]
    tauto

/-! ## C4: failed_tests -/

/-- The claim's reading of "auto_score < max_score (including when
auto_score is unset)": an unset auto_score counts as below the maximum. -/
def claimedAutoBelowMax (db : DB) (g : GradeRow) : Bool :=
  match g.auto_score, Grade.max_score db g with
  | some a, some m => decide (a < m)
  | none, _ => true
  | _, _ => false

/-- C4 at one Grade row, as the claim states it: failed_tests is true iff
the cell is code-typed and auto_score < max_score, where an unset
auto_score counts as failing. -/
def claimedGradeFailedTests (db : DB) (g : GradeRow) : Prop :=
  Grade.failed_tests db g = true ↔
    (Grade.cell_type db g = some CellType.code ∧
      claimedAutoBelowMax db g = true)

/-- A database with one code grade cell worth 1 point and one grade on it
with auto_score unset. -/
def exDbC4 : DB :=
  { assignments := [⟨1, 10, none⟩]
    notebooks := [⟨2, 20, 1⟩]
    grade_cells := [⟨3, 30, 1, CellType.code, 2⟩]
    solution_cells := []
    students := [⟨4, none, none, none⟩]
    submitted_assignments := [⟨5, 1, 4, none, none⟩]
    submitted_notebooks := [⟨6, 2, 5⟩]
    grades := [⟨7, 3, 6, none, none⟩]
    comments := []
    next_id := 8 }

/-- Counterexample to C4 as stated: on a code-typed grade whose auto_score
is unset, the code's `failed_tests` is false (SQL `NULL < max` is not
true), not true as the claim's parenthetical asserts. -/
theorem claimed_failed_tests_false_on_unset_auto :
    ¬ claimedGradeFailedTests exDbC4 ⟨7, 3, 6, none, none⟩ := by
  unfold claimedGradeFailedTests claimedAutoBelowMax
  decide

/-- C4 amended: failed_tests is true iff the cell is code-typed and
auto_score is set and strictly below max_score; a Grade with unset
auto_score never has failed_tests true.  The SubmittedNotebook part is as
claimed: true iff some descendant Grade has failed_tests true. -/
theorem failed_tests_iff (db : DB) :
    (∀ g : GradeRow, Grade.failed_tests db g = true ↔
      (Grade.cell_type db g = some CellType.code ∧
        ∃ a m, g.auto_score = some a ∧ Grade.max_score db g = some m ∧
          a < m)) ∧
    (∀ sn : SubmittedNotebookRow,
      SubmittedNotebook.failed_tests db sn = true ↔
      ∃ g ∈ db.grades, g.notebook_id = sn.id ∧
        Grade.failed_tests db g = true) := by
  constructor
  · intro g
    unfold Grade.failed_tests
    cases ha : g.auto_score with
    | none => simp [ha]
    | some a =>
      cases hm : Grade.max_score db g with
      | none => simp [ha, hm]
      | some m => simp [ha, hm, and_comm]
  · intro sn
    simp only [SubmittedNotebook.failed_tests, List.any_eq_true,
      Bool.and_eq_true, beq_iff_eq]

/-! ## List toolbox: sums over joins, grouped sums, unique-key lookups -/

theorem sum_flatMap_eq {α : Type} (l : List α) (f : α → List Rat) :
    (l.flatMap f).sum = (l.map (fun a => (f a).sum)).sum := by
  induction l with
  | nil => simp
  | cons a t ih => simp [List.flatMap_cons, ih]

theorem sum_map_flatMap {α β : Type} (l : List α) (f : α → List β)
    (w : β → Rat) :
    ((l.flatMap f).map w).sum = (l.map (fun a => ((f a).map w).sum)).sum := by
  induction l with
  | nil => simp
  | cons a t ih => simp [List.flatMap_cons, ih]

theorem sum_filter_or_disjoint {α : Type} (l : List α) (p q : α → Bool)
    (w : α → Rat) (h : ∀ x ∈ l, ¬(p x = true ∧ q x = true)) :
    ((l.filter (fun x => p x || q x)).map w).sum
      = ((l.filter p).map w).sum + ((l.filter q).map w).sum := by
  induction l with
  | nil => simp
  | cons a t ih =>
    have ht : ∀ x ∈ t, ¬(p x = true ∧ q x = true) := fun x hx =>
      h x (List.mem_cons_of_mem _ hx)
    have ihe := ih ht
    by_cases hp : p a = true
    · have hq : q a = false := by
        cases hqv : q a with
        | false => rfl
        | true => exact absurd ⟨hp, hqv⟩ (h a (List.mem_cons_self a t))
      simp [List.filter_cons, hp, hq, ihe]
      ring
    · have hp' : p a = false := by
        cases hpv : p a with
        | false => rfl
        | true => exact absurd hpv hp
      cases hq : q a with
      | false =>
        simp [List.filter_cons, hp', hq, ihe]
      | true =>
        simp [List.filter_cons, hp', hq, ihe]
        ring

theorem sum_flatMap_groups {α β : Type} (groups : List β) (gkey : β → Nat)
    (items : List α) (key : α → Nat) (w : α → Rat)
    (hpw : groups.Pairwise (fun x y => gkey x ≠ gkey y)) :
    ((groups.flatMap (fun gp => items.filter (fun x => key x == gkey gp))).map
      w).sum
      = ((items.filter (fun x =>
          groups.any (fun gp => key x == gkey gp))).map w).sum := by
  induction groups with
  | nil => simp
  | cons gp gs ih =>
    obtain ⟨hhead, htail⟩ := List.pairwise_cons.mp hpw
    rw [List.flatMap_cons, List.map_append, List.sum_append, ih htail]
    have hdisj : ∀ x ∈ items,
        ¬((key x == gkey gp) = true ∧
          (gs.any (fun g2 => key x == gkey g2)) = true) := by
      intro x _ ⟨h1, h2⟩
      obtain ⟨g2, hg2, he⟩ := List.any_eq_true.mp h2
      exact hhead g2 hg2 ((beq_iff_eq.mp h1).symm.trans (beq_iff_eq.mp he))
    rw [← sum_filter_or_disjoint items _ _ w hdisj]
    have : ∀ x ∈ items,
        ((key x == gkey gp) || gs.any (fun g2 => key x == gkey g2))
          = (gp :: gs).any (fun g2 => key x == gkey g2) := by
      intro x _
      rw [List.any_cons]
    rw [List.filter_congr this]

theorem find?_eq_of_key {α : Type} (l : List α) (p : α → Bool) (key : α → Nat)
    (hpw : l.Pairwise (fun x y => key x ≠ key y)) (a : α) (ha : a ∈ l)
    (hiff : ∀ x, p x = true ↔ key x = key a) :
    l.find? p = some a := by
  induction l with
  | nil => cases ha
  | cons b t ih =>
    obtain ⟨hhead, htail⟩ := List.pairwise_cons.mp hpw
    rcases List.mem_cons.mp ha with rfl | hat
    · exact List.find?_cons_of_pos _ ((hiff _).mpr rfl)
    · have hb : p b = false := by
        cases hpv : p b with
        | false => rfl
        | true => exact absurd ((hiff b).mp hpv) (hhead a hat)
      rw [List.find?_cons_of_neg _ (by rw [hb]; exact Bool.false_ne_true)]
      exact ih htail hat

theorem filter_eq_single_of_key {α : Type} (l : List α) (p : α → Bool)
    (key : α → Nat) (hpw : l.Pairwise (fun x y => key x ≠ key y)) (a : α)
    (ha : a ∈ l) (hiff : ∀ x, p x = true ↔ key x = key a) :
    l.filter p = [a] := by
  induction l with
  | nil => cases ha
  | cons b t ih =>
    obtain ⟨hhead, htail⟩ := List.pairwise_cons.mp hpw
    rcases List.mem_cons.mp ha with rfl | hat
    · rw [List.filter_cons_of_pos ((hiff _).mpr rfl)]
      have htnil : t.filter p = [] := by
        apply List.filter_eq_nil_iff.mpr
        intro x hx hpx
        exact hhead x hx ((hiff x).mp hpx).symm
      rw [htnil]
    · have hb : p b = false := by
        cases hpv : p b with
        | false => rfl
        | true => exact absurd ((hiff b).mp hpv) (hhead a hat)
      rw [List.filter_cons_of_neg (by rw [hb]; exact Bool.false_ne_true)]
      exact ih htail hat

/-! ## C2: max_score roll-ups -/

/-- Spec: the descendant GradeCells of a Notebook. -/
def specNotebookCells (db : DB) (nb : NotebookRow) : List GradeCellRow :=
  db.grade_cells.filter (fun c => c.notebook_id == nb.id)

/-- Spec: the descendant GradeCells of an Assignment. -/
def specAssignmentCells (db : DB) (a : AssignmentRow) : List GradeCellRow :=
  (db.notebooks.filter (fun nb => nb.assignment_id == a.id)).flatMap
    (specNotebookCells db)

/-- Spec: the descendant GradeCells of a SubmittedNotebook (the cells of
its template notebook). -/
def specSnCells (db : DB) (sn : SubmittedNotebookRow) : List GradeCellRow :=
  (db.notebooks.filter (fun nb => nb.id == sn.notebook_id)).flatMap
    (specNotebookCells db)

/-- Spec: the descendant GradeCells of a SubmittedAssignment (the cells of
its assignment). -/
def specSaCells (db : DB) (sa : SubmittedAssignmentRow) : List GradeCellRow :=
  (db.assignments.filter (fun a => a.id == sa.assignment_id)).flatMap
    (specAssignmentCells db)

/-- Spec: the descendant GradeCells of a Student (the cells of the grades
of the student's submitted notebooks). -/
def specStudentCells (db : DB) (s : StudentRow) : List GradeCellRow :=
  (db.submitted_assignments.filter (fun sa => sa.student_id == s.id)).flatMap
    (fun sa =>
      (db.submitted_notebooks.filter (fun sn =>
        sn.assignment_id == sa.id)).flatMap (fun sn =>
          (db.grades.filter (fun g => g.notebook_id == sn.id)).flatMap
            (fun g => db.grade_cells.filter (fun c => c.id == g.cell_id))))

/-- Sum of `max_score` over a list of grade cells. -/
def cellSum (cells : List GradeCellRow) : Rat :=
  (cells.map (fun c => c.max_score)).sum

/-- Sum of `max_score` over the cells of one cell_type. -/
def cellSumOfType (t : CellType) (cells : List GradeCellRow) : Rat :=
  ((cells.filter (fun c => c.cell_type == t)).map (fun c => c.max_score)).sum

/-- C2 as the claim states it: every container's derived max_score is the
sum of max_score over its descendant GradeCells, and the code/written
variants are the same sums restricted by cell_type. -/
def claimedMaxScoreRollup (db : DB) : Prop :=
  (∀ nb ∈ db.notebooks,
    Notebook.max_score db nb = cellSum (specNotebookCells db nb) ∧
    Notebook.max_code_score db nb
      = cellSumOfType CellType.code (specNotebookCells db nb) ∧
    Notebook.max_written_score db nb
      = cellSumOfType CellType.markdown (specNotebookCells db nb)) ∧
  (∀ a ∈ db.assignments,
    Assignment.max_score db a = cellSum (specAssignmentCells db a) ∧
    Assignment.max_code_score db a
      = cellSumOfType CellType.code (specAssignmentCells db a) ∧
    Assignment.max_written_score db a
      = cellSumOfType CellType.markdown (specAssignmentCells db a)) ∧
  (∀ sn ∈ db.submitted_notebooks,
    SubmittedNotebook.max_score db sn = some (cellSum (specSnCells db sn)) ∧
    SubmittedNotebook.max_code_score db sn
      = some (cellSumOfType CellType.code (specSnCells db sn)) ∧
    SubmittedNotebook.max_written_score db sn
      = some (cellSumOfType CellType.markdown (specSnCells db sn))) ∧
  (∀ sa ∈ db.submitted_assignments,
    SubmittedAssignment.max_score db sa = some (cellSum (specSaCells db sa)) ∧
    SubmittedAssignment.max_code_score db sa
      = some (cellSumOfType CellType.code (specSaCells db sa)) ∧
    SubmittedAssignment.max_written_score db sa
      = some (cellSumOfType CellType.markdown (specSaCells db sa))) ∧
  (∀ s ∈ db.students,
    Student.max_score db s = cellSum (specStudentCells db s))

/-- A well-formed database with one assignment, one notebook, one code
grade cell worth 5, one student, and no submissions. -/
def exDbC2 : DB :=
  { assignments := [⟨1, 10, none⟩]
    notebooks := [⟨2, 20, 1⟩]
    grade_cells := [⟨3, 30, 5, CellType.code, 2⟩]
    solution_cells := []
    students := [⟨4, none, none, none⟩]
    submitted_assignments := []
    submitted_notebooks := []
    grades := []
    comments := []
    next_id := 5 }

/-- Counterexample to C2 as stated: the student has no submissions, hence
no descendant GradeCells, yet `Student.max_score` is 5 (the source query
sums `Assignment.max_score` over ALL assignments, with no restriction to
the student's submissions). -/
theorem claimed_max_score_rollup_false : ¬ claimedMaxScoreRollup exDbC2 := by
  intro h
  have hs := h.2.2.2.2 ⟨4, none, none, none⟩ (by simp [exDbC2])
  simp [exDbC2, Student.max_score, Assignment.max_score, Notebook.max_score,
    cellSum, specStudentCells] at hs

/-- The source's `Student.max_score` sums `Assignment.max_score` over every
assignment; under referential integrity and unique ids that is the total
max_score over every grade cell in the database, for any student. -/
theorem student_max_score_total (db : DB)
    (haid : db.assignments.Pairwise (fun x y => x.id ≠ y.id))
    (hnid : db.notebooks.Pairwise (fun x y => x.id ≠ y.id))
    (hnba : ∀ nb ∈ db.notebooks, ∃ a ∈ db.assignments, nb.assignment_id = a.id)
    (hcnb : ∀ c ∈ db.grade_cells, ∃ nb ∈ db.notebooks, c.notebook_id = nb.id) :
    ∀ s : StudentRow, Student.max_score db s = cellSum db.grade_cells := by
intro s
have hstep1 : (Assignment.max_score db)
    = (fun a => ((db.notebooks.filter (fun nb =>
        nb.assignment_id == a.id)).map
        (fun nb => Notebook.max_score db nb)).sum) := by
  funext a
  unfold Assignment.max_score Notebook.max_score
  rw [sum_flatMap_eq]
unfold Student.max_score
rw [hstep1, ← sum_map_flatMap db.assignments
  (fun a => db.notebooks.filter (fun nb => nb.assignment_id == a.id))
  (fun nb => Notebook.max_score db nb)]
rw [sum_flatMap_groups db.assignments (fun a => a.id) db.notebooks
  (fun nb => nb.assignment_id) (fun nb => Notebook.max_score db nb) haid]
have hall1 : db.notebooks.filter (fun nb =>
    db.assignments.any (fun a => nb.assignment_id == a.id))
    = db.notebooks := by
  apply List.filter_eq_self.mpr
  intro nb hnb
  obtain ⟨a, ha, he⟩ := hnba nb hnb
  exact List.any_eq_true.mpr ⟨a, ha, beq_iff_eq.mpr he⟩
rw [hall1]
have hstep2 : (fun nb => Notebook.max_score db nb)
    = (fun nb => ((db.grade_cells.filter (fun c =>
        c.notebook_id == nb.id)).map (fun c => c.max_score)).sum) := rfl
rw [hstep2, ← sum_map_flatMap db.notebooks
  (fun nb => db.grade_cells.filter (fun c => c.notebook_id == nb.id))
  (fun c => c.max_score)]
rw [sum_flatMap_groups db.notebooks (fun nb => nb.id) db.grade_cells
  (fun c => c.notebook_id) (fun c => c.max_score) hnid]
have hall2 : db.grade_cells.filter (fun c =>
    db.notebooks.any (fun nb => c.notebook_id == nb.id))
    = db.grade_cells := by
  apply List.filter_eq_self.mpr
  intro c hc
  obtain ⟨nb, hnb, he⟩ := hcnb c hc
  exact List.any_eq_true.mpr ⟨nb, hnb, beq_iff_eq.mpr he⟩
rw [hall2]
rfl

/-- C2 amended: the max_score roll-up (and its code/written cuts) is the
descendant-GradeCell sum for Notebook, Assignment, SubmittedNotebook and
SubmittedAssignment (the latter two via their template notebook /
assignment, given referential integrity and unique ids).  For Student the
claim fails: `Student.max_score` sums `Assignment.max_score` over ALL
assignments with no restriction to the student, i.e. it equals the sum of
max_score over every GradeCell in the database, independent of the
student's submissions. -/
theorem container_max_score_rollup (db : DB)
    (haid : db.assignments.Pairwise (fun x y => x.id ≠ y.id))
    (hnid : db.notebooks.Pairwise (fun x y => x.id ≠ y.id))
    (hnba : ∀ nb ∈ db.notebooks, ∃ a ∈ db.assignments, nb.assignment_id = a.id)
    (hcnb : ∀ c ∈ db.grade_cells, ∃ nb ∈ db.notebooks, c.notebook_id = nb.id)
    (hsnb : ∀ sn ∈ db.submitted_notebooks,
      ∃ nb ∈ db.notebooks, sn.notebook_id = nb.id)
    (hsaa : ∀ sa ∈ db.submitted_assignments,
      ∃ a ∈ db.assignments, sa.assignment_id = a.id) :
    (∀ nb : NotebookRow,
      Notebook.max_score db nb = cellSum (specNotebookCells db nb) ∧
      Notebook.max_code_score db nb
        = cellSumOfType CellType.code (specNotebookCells db nb) ∧
      Notebook.max_written_score db nb
        = cellSumOfType CellType.markdown (specNotebookCells db nb)) ∧
    (∀ a : AssignmentRow,
      Assignment.max_score db a = cellSum (specAssignmentCells db a) ∧
      Assignment.max_code_score db a
        = cellSumOfType CellType.code (specAssignmentCells db a) ∧
      Assignment.max_written_score db a
        = cellSumOfType CellType.markdown (specAssignmentCells db a)) ∧
    (∀ sn ∈ db.submitted_notebooks,
      SubmittedNotebook.max_score db sn = some (cellSum (specSnCells db sn)) ∧
      SubmittedNotebook.max_code_score db sn
        = some (cellSumOfType CellType.code (specSnCells db sn)) ∧
      SubmittedNotebook.max_written_score db sn
        = some (cellSumOfType CellType.markdown (specSnCells db sn))) ∧
    (∀ sa ∈ db.submitted_assignments,
      SubmittedAssignment.max_score db sa
        = some (cellSum (specSaCells db sa)) ∧
      SubmittedAssignment.max_code_score db sa
        = some (cellSumOfType CellType.code (specSaCells db sa)) ∧
      SubmittedAssignment.max_written_score db sa
        = some (cellSumOfType CellType.markdown (specSaCells db sa))) ∧
    (∀ s : StudentRow, Student.max_score db s = cellSum db.grade_cells) := by
  have hnb_max : ∀ nb : NotebookRow,
      Notebook.max_score db nb = cellSum (specNotebookCells db nb) :=
    fun _ => rfl
  have hnb_cut : ∀ (t : CellType) (nb : NotebookRow),
      ((db.grade_cells.filter (fun c =>
        c.notebook_id == nb.id && (c.cell_type == t))).map
        (fun c => c.max_score)).sum
        = cellSumOfType t (specNotebookCells db nb) := by
    intro t nb
    unfold cellSumOfType specNotebookCells
    rw [List.filter_filter]
    rw [List.filter_congr (fun c _ => Bool.and_comm
      (c.notebook_id == nb.id) (c.cell_type == t))]
  have hnb_code : ∀ nb : NotebookRow,
      Notebook.max_code_score db nb
        = cellSumOfType CellType.code (specNotebookCells db nb) :=
    fun nb => hnb_cut CellType.code nb
  have hnb_written : ∀ nb : NotebookRow,
      Notebook.max_written_score db nb
        = cellSumOfType CellType.markdown (specNotebookCells db nb) :=
    fun nb => hnb_cut CellType.markdown nb
  have ha_max : ∀ a : AssignmentRow,
      Assignment.max_score db a = cellSum (specAssignmentCells db a) := by
    intro a
    unfold Assignment.max_score cellSum specAssignmentCells specNotebookCells
    rw [List.map_flatMap]
  have ha_cut : ∀ (t : CellType) (a : AssignmentRow),
      ((db.notebooks.filter (fun nb => nb.assignment_id == a.id)).flatMap
        (fun nb => (db.grade_cells.filter (fun c =>
          c.notebook_id == nb.id && (c.cell_type == t))).map
          (fun c => c.max_score))).sum
        = cellSumOfType t (specAssignmentCells db a) := by
    intro t a
    unfold cellSumOfType specAssignmentCells specNotebookCells
    rw [List.filter_flatMap, List.map_flatMap]
    have hfn : (fun (nb : NotebookRow) => ((db.grade_cells.filter (fun c =>
        c.notebook_id == nb.id)).filter (fun c => c.cell_type == t)).map
        (fun c => c.max_score))
        = (fun (nb : NotebookRow) => (db.grade_cells.filter (fun c =>
          c.notebook_id == nb.id && (c.cell_type == t))).map
          (fun c => c.max_score)) := by
      funext nb
      rw [List.filter_filter]
      rw [List.filter_congr (fun c _ => (Bool.and_comm
        (c.notebook_id == nb.id) (c.cell_type == t)).symm)]
    rw [hfn]
  have ha_code : ∀ a : AssignmentRow,
      Assignment.max_code_score db a
        = cellSumOfType CellType.code (specAssignmentCells db a) :=
    fun a => ha_cut CellType.code a
  have ha_written : ∀ a : AssignmentRow,
      Assignment.max_written_score db a
        = cellSumOfType CellType.markdown (specAssignmentCells db a) :=
    fun a => ha_cut CellType.markdown a
  refine ⟨fun nb => ⟨hnb_max nb, hnb_code nb, hnb_written nb⟩,
    fun a => ⟨ha_max a, ha_code a, ha_written a⟩, ?_, ?_, ?_⟩
  · -- SubmittedNotebook: scalar subqueries on the unique template notebook
    intro sn hsn
    obtain ⟨nb0, hnb0, hkey⟩ := hsnb sn hsn
    have hfind1 : db.notebooks.find? (fun nb => sn.notebook_id == nb.id)
        = some nb0 :=
      find?_eq_of_key db.notebooks _ (fun nb => nb.id) hnid nb0 hnb0
        (by intro x; rw [beq_iff_eq, hkey]; exact eq_comm)
    have hfind2 : db.notebooks.find? (fun nb => nb.id == sn.notebook_id)
        = some nb0 :=
      find?_eq_of_key db.notebooks _ (fun nb => nb.id) hnid nb0 hnb0
        (by intro x; rw [beq_iff_eq, hkey])
    have hcells : specSnCells db sn = specNotebookCells db nb0 := by
      unfold specSnCells
      rw [filter_eq_single_of_key db.notebooks _ (fun nb => nb.id) hnid nb0
        hnb0 (by intro x; rw [beq_iff_eq, hkey])]
      simp
    refine ⟨?_, ?_, ?_⟩
    · unfold SubmittedNotebook.max_score
      rw [hfind1, hcells]
      exact congrArg some (hnb_max nb0)
    · unfold SubmittedNotebook.max_code_score
      rw [hfind2, hcells]
      exact congrArg some (hnb_code nb0)
    · unfold SubmittedNotebook.max_written_score
      rw [hfind2, hcells]
      exact congrArg some (hnb_written nb0)
  · -- SubmittedAssignment: scalar subqueries on the unique assignment
    intro sa hsa
    obtain ⟨a0, ha0, hkey⟩ := hsaa sa hsa
    have hfind1 : db.assignments.find? (fun a => sa.assignment_id == a.id)
        = some a0 :=
      find?_eq_of_key db.assignments _ (fun a => a.id) haid a0 ha0
        (by intro x; rw [beq_iff_eq, hkey]; exact eq_comm)
    have hfind2 : db.assignments.find? (fun a => a.id == sa.assignment_id)
        = some a0 :=
      find?_eq_of_key db.assignments _ (fun a => a.id) haid a0 ha0
        (by intro x; rw [beq_iff_eq, hkey])
    have hcells : specSaCells db sa = specAssignmentCells db a0 := by
      unfold specSaCells
      rw [filter_eq_single_of_key db.assignments _ (fun a => a.id) haid a0
        ha0 (by intro x; rw [beq_iff_eq, hkey])]
      simp
    refine ⟨?_, ?_, ?_⟩
    · unfold SubmittedAssignment.max_score
      rw [hfind1, hcells]
      exact congrArg some (ha_max a0)
    · unfold SubmittedAssignment.max_code_score
      rw [hfind2, hcells]
      exact congrArg some (ha_code a0)
    · unfold SubmittedAssignment.max_written_score
      rw [hfind2, hcells]
      exact congrArg some (ha_written a0)
  · exact student_max_score_total db haid hnid hnba hcnb

/-- Witness for the amended C2 on the concrete database `exDbC2`: the
hypotheses hold and the student's max_score is the total over all grade
cells. -/
theorem container_max_score_rollup_witness :
    Student.max_score exDbC2 ⟨4, none, none, none⟩ = cellSum exDbC2.grade_cells :=
  (container_max_score_rollup exDbC2 (by decide) (by decide) (by decide)
    (by decide) (by decide) (by decide)).2.2.2.2 ⟨4, none, none, none⟩

/-! ## Errors raised by the facade and entity properties -/

/-- The errors the embedded code can surface: the two facade error classes,
and the Python runtime errors reachable in the embedded fragment. -/
inductive PyErr where
  | missingEntry
  | invalidEntry
  | typeError
  | attributeError
  | zeroDivisionError
deriving DecidableEq, Repr

/-! ## C9: effective duedate and total_seconds_late -/

/-- `SubmittedAssignment.duedate` (property, api.py lines 183-189):
`orig_duedate = self.assignment.duedate; if self.extension is not None:
return orig_duedate + self.extension; else: return orig_duedate`.
When the assignment row is missing, `self.assignment` is `None` and the
attribute access raises; when the assignment's duedate is None and an
extension is set, `None + timedelta` raises TypeError. -/
def SubmittedAssignment.duedate (db : DB) (sa : SubmittedAssignmentRow) :
    Except PyErr (Option Int) :=
  match db.assignments.find? (fun a => a.id == sa.assignment_id) with
  | none => .error PyErr.attributeError
  | some a =>
    match sa.extension with
    | none => .ok a.duedate
    | some ext =>
      match a.duedate with
      | none => .error PyErr.typeError
      | some d => .ok (some (d + ext))

/-- `SubmittedAssignment.total_seconds_late` (api.py lines 191-196):
`if self.timestamp is None or self.duedate is None: return 0; else:
return max(0, (self.timestamp - self.duedate).total_seconds())`.
Python's `or` short-circuits, so `self.duedate` is only evaluated when the
timestamp is set. -/
def SubmittedAssignment.total_seconds_late (db : DB)
    (sa : SubmittedAssignmentRow) : Except PyErr Int :=
  match sa.timestamp with
  | none => .ok 0
  | some ts =>
    match SubmittedAssignment.duedate db sa with
    | .error e => .error e
    | .ok none => .ok 0
    | .ok (some d) => .ok (max 0 (ts - d))

/-- C9 as the claim states it: for every submission, the effective duedate
computes (due date plus extension when the extension is set, the due date
otherwise) and total_seconds_late computes — never failing. -/
def claimedSubmissionLateness (db : DB) : Prop :=
  ∀ sa ∈ db.submitted_assignments, ∀ a ∈ db.assignments,
    sa.assignment_id = a.id →
    (∃ dd, SubmittedAssignment.duedate db sa = .ok dd ∧
      (sa.extension = none → dd = a.duedate) ∧
      (∀ e d, sa.extension = some e → a.duedate = some d →
        dd = some (d + e))) ∧
    (∃ ts, SubmittedAssignment.total_seconds_late db sa = .ok ts)

/-- A database whose one submission has an extension while its assignment
has no due date. -/
def exDbC9 : DB :=
  { assignments := [⟨1, 10, none⟩]
    notebooks := []
    grade_cells := []
    solution_cells := []
    students := [⟨4, none, none, none⟩]
    submitted_assignments := [⟨5, 1, 4, some 100, some 60⟩]
    submitted_notebooks := []
    grades := []
    comments := []
    next_id := 6 }

/-- Counterexample to C9 as stated: with no assignment due date but an
extension set, the duedate property evaluates `None + extension` and
raises a TypeError instead of returning a value. -/
theorem claimed_submission_lateness_false : ¬ claimedSubmissionLateness exDbC9 := by
  intro h
  obtain ⟨⟨dd, hdd, h1, h2⟩, hts⟩ :=
    h ⟨5, 1, 4, some 100, some 60⟩ (by simp [exDbC9]) ⟨1, 10, none⟩
      (by simp [exDbC9]) rfl
  simp [SubmittedAssignment.duedate, exDbC9] at hdd

/-- C9 amended: the effective duedate is the assignment's due date plus the
extension when both are set, the due date alone when the extension is
unset; but when the assignment has no due date and an extension is set the
computation raises a TypeError.  total_seconds_late is 0 when the timestamp
is unset (without evaluating duedate) or when the effective duedate is
None, max(0, timestamp - duedate) in seconds otherwise, and it propagates
the duedate TypeError when the timestamp is set. -/
theorem submission_lateness_spec (db : DB) (sa : SubmittedAssignmentRow)
    (a : AssignmentRow)
    (hfind : db.assignments.find? (fun x => x.id == sa.assignment_id) = some a) :
    (sa.extension = none →
      SubmittedAssignment.duedate db sa = .ok a.duedate) ∧
    (∀ e d, sa.extension = some e → a.duedate = some d →
      SubmittedAssignment.duedate db sa = .ok (some (d + e))) ∧
    (∀ e, sa.extension = some e → a.duedate = none →
      SubmittedAssignment.duedate db sa = .error PyErr.typeError) ∧
    (sa.timestamp = none →
      SubmittedAssignment.total_seconds_late db sa = .ok 0) ∧
    (∀ ts, sa.timestamp = some ts →
      ∀ dd, SubmittedAssignment.duedate db sa = .ok dd →
        ((dd = none →
          SubmittedAssignment.total_seconds_late db sa = .ok 0) ∧
         (∀ d, dd = some d →
          SubmittedAssignment.total_seconds_late db sa
            = .ok (max 0 (ts - d))))) ∧
    (∀ ts e, sa.timestamp = some ts → sa.extension = some e →
      a.duedate = none →
      SubmittedAssignment.total_seconds_late db sa
        = .error PyErr.typeError) := by
  refine ⟨?_, ?_, ?_, ?_, ?_, ?_⟩
  · intro hext
    simp [SubmittedAssignment.duedate, hfind, hext]
  · intro e d hext hdue
    simp [SubmittedAssignment.duedate, hfind, hext, hdue]
  · intro e hext hdue
    simp [SubmittedAssignment.duedate, hfind, hext, hdue]
  · intro hts
    simp [SubmittedAssignment.total_seconds_late, hts]
  · intro ts hts dd hdd
    constructor
    · intro hnone
      rw [hnone] at hdd
      simp [SubmittedAssignment.total_seconds_late, hts, hdd]
    · intro d hsome
      rw [hsome] at hdd
      simp [SubmittedAssignment.total_seconds_late, hts, hdd]
  · intro ts e hts hext hdue
    have herr : SubmittedAssignment.duedate db sa = .error PyErr.typeError := by
      simp [SubmittedAssignment.duedate, hfind, hext, hdue]
    simp [SubmittedAssignment.total_seconds_late, hts, herr]

/-- Witness for the amended C9 on a concrete submission: due date 50,
extension 10, timestamp 100 gives an effective duedate of 60 and 40
seconds of lateness. -/
theorem submission_lateness_spec_witness :
    SubmittedAssignment.duedate
      ⟨[⟨1, 10, some 50⟩], [], [], [], [], [⟨5, 1, 4, some 100, some 10⟩],
        [], [], [], 6⟩ ⟨5, 1, 4, some 100, some 10⟩ = .ok (some 60) ∧
    SubmittedAssignment.total_seconds_late
      ⟨[⟨1, 10, some 50⟩], [], [], [], [], [⟨5, 1, 4, some 100, some 10⟩],
        [], [], [], 6⟩ ⟨5, 1, 4, some 100, some 10⟩ = .ok 40 := by
  have h := submission_lateness_spec
    ⟨[⟨1, 10, some 50⟩], [], [], [], [], [⟨5, 1, 4, some 100, some 10⟩],
      [], [], [], 6⟩ ⟨5, 1, 4, some 100, some 10⟩ ⟨1, 10, some 50⟩ (by decide)
  have hdd := h.2.1 10 50 rfl rfl
  refine ⟨hdd, ?_⟩
  have := (h.2.2.2.2.1 100 rfl (some 60) hdd).2 60 rfl
  simpa using this

/-! ## Gradebook lookups and average scores (C8) -/

namespace Gradebook

/-- `find_assignment`: unique lookup by name, MissingEntry when absent. -/
def find_assignment (db : DB) (name : Nat) : Except PyErr AssignmentRow :=
  match db.assignments.find? (fun a => a.name == name) with
  | some a => .ok a
  | none => .error PyErr.missingEntry

/-- `find_notebook`: lookup by name within an assignment (join Notebook
with Assignment on the foreign key, filter both names). -/
def find_notebook (db : DB) (name : Nat) (assignment : Nat) :
    Except PyErr NotebookRow :=
  match db.notebooks.find? (fun nb => nb.name == name &&
      db.assignments.any (fun a =>
        a.id == nb.assignment_id && (a.name == assignment))) with
  | some nb => .ok nb
  | none => .error PyErr.missingEntry

/-- `find_student`: unique lookup by id. -/
def find_student (db : DB) (student_id : Nat) : Except PyErr StudentRow :=
  match db.students.find? (fun s => s.id == student_id) with
  | some s => .ok s
  | none => .error PyErr.missingEntry

/-- Python float division: raises ZeroDivisionError on a zero divisor. -/
def pyDiv (x : Rat) (n : Nat) : Except PyErr Rat :=
  if n = 0 then .error PyErr.zeroDivisionError else .ok (x / (n : Rat))

/-- `average_assignment_score`: 0.0 when the assignment has no submissions,
otherwise the sum of `Grade.score` over the join
Grade-GradeCell-Notebook-Assignment filtered by name, divided by the
number of submissions. -/
def average_assignment_score (db : DB) (assignment_id : Nat) :
    Except PyErr Rat :=
  match find_assignment db assignment_id with
  | .error e => .error e
  | .ok a =>
    if Assignment.num_submissions db a = 0 then .ok 0
    else
      let score_sum := ((db.grades.flatMap (fun g =>
        (db.grade_cells.filter (fun gc => g.cell_id == gc.id)).flatMap
          (fun gc =>
            (db.notebooks.filter (fun nb =>
              gc.notebook_id == nb.id)).flatMap (fun nb =>
                (db.assignments.filter (fun a2 =>
                  nb.assignment_id == a2.id &&
                  (a2.name == assignment_id))).map
                  (fun _ => Grade.score g)))))).sum
      pyDiv score_sum (Assignment.num_submissions db a)

/-- `average_assignment_code_score`: same restricted to code cells. -/
def average_assignment_code_score (db : DB) (assignment_id : Nat) :
    Except PyErr Rat :=
  match find_assignment db assignment_id with
  | .error e => .error e
  | .ok a =>
    if Assignment.num_submissions db a = 0 then .ok 0
    else
      let score_sum := ((db.grades.flatMap (fun g =>
        (db.grade_cells.filter (fun gc => g.cell_id == gc.id &&
          (gc.cell_type == CellType.code))).flatMap (fun gc =>
            (db.notebooks.filter (fun nb =>
              gc.notebook_id == nb.id)).flatMap (fun nb =>
                (db.assignments.filter (fun a2 =>
                  nb.assignment_id == a2.id &&
                  (a2.name == assignment_id))).map
                  (fun _ => Grade.score g)))))).sum
      pyDiv score_sum (Assignment.num_submissions db a)

/-- `average_assignment_written_score`: same restricted to markdown cells. -/
def average_assignment_written_score (db : DB) (assignment_id : Nat) :
    Except PyErr Rat :=
  match find_assignment db assignment_id with
  | .error e => .error e
  | .ok a =>
    if Assignment.num_submissions db a = 0 then .ok 0
    else
      let score_sum := ((db.grades.flatMap (fun g =>
        (db.grade_cells.filter (fun gc => g.cell_id == gc.id &&
          (gc.cell_type == CellType.markdown))).flatMap (fun gc =>
            (db.notebooks.filter (fun nb =>
              gc.notebook_id == nb.id)).flatMap (fun nb =>
                (db.assignments.filter (fun a2 =>
                  nb.assignment_id == a2.id &&
                  (a2.name == assignment_id))).map
                  (fun _ => Grade.score g)))))).sum
      pyDiv score_sum (Assignment.num_submissions db a)

/-- `average_notebook_score`: 0.0 when the notebook has no submissions,
otherwise the sum of `Grade.score` over the join
Grade-SubmittedNotebook-Notebook-Assignment filtered by both names,
divided by the number of submitted notebooks. -/
def average_notebook_score (db : DB) (notebook_id assignment_id : Nat) :
    Except PyErr Rat :=
  match find_notebook db notebook_id assignment_id with
  | .error e => .error e
  | .ok nb =>
    if Notebook.num_submissions db nb = 0 then .ok 0
    else
      let score_sum := ((db.grades.flatMap (fun g =>
        (db.submitted_notebooks.filter (fun sn =>
          g.notebook_id == sn.id)).flatMap (fun sn =>
            (db.notebooks.filter (fun nb2 =>
              sn.notebook_id == nb2.id &&
              (nb2.name == notebook_id))).flatMap (fun nb2 =>
                (db.assignments.filter (fun a2 =>
                  nb2.assignment_id == a2.id &&
                  (a2.name == assignment_id))).map
                  (fun _ => Grade.score g)))))).sum
      pyDiv score_sum (Notebook.num_submissions db nb)

/-- `average_notebook_code_score`: joins Grade-GradeCell-Notebook-Assignment
restricted to code cells, filtered by both names. -/
def average_notebook_code_score (db : DB) (notebook_id assignment_id : Nat) :
    Except PyErr Rat :=
  match find_notebook db notebook_id assignment_id with
  | .error e => .error e
  | .ok nb =>
    if Notebook.num_submissions db nb = 0 then .ok 0
    else
      let score_sum := ((db.grades.flatMap (fun g =>
        (db.grade_cells.filter (fun gc => g.cell_id == gc.id &&
          (gc.cell_type == CellType.code))).flatMap (fun gc =>
            (db.notebooks.filter (fun nb2 =>
              gc.notebook_id == nb2.id &&
              (nb2.name == notebook_id))).flatMap (fun nb2 =>
                (db.assignments.filter (fun a2 =>
                  nb2.assignment_id == a2.id &&
                  (a2.name == assignment_id))).map
                  (fun _ => Grade.score g)))))).sum
      pyDiv score_sum (Notebook.num_submissions db nb)

/-- `average_notebook_written_score`: as the code variant, with markdown. -/
def average_notebook_written_score (db : DB)
    (notebook_id assignment_id : Nat) : Except PyErr Rat :=
  match find_notebook db notebook_id assignment_id with
  | .error e => .error e
  | .ok nb =>
    if Notebook.num_submissions db nb = 0 then .ok 0
    else
      let score_sum := ((db.grades.flatMap (fun g =>
        (db.grade_cells.filter (fun gc => g.cell_id == gc.id &&
          (gc.cell_type == CellType.markdown))).flatMap (fun gc =>
            (db.notebooks.filter (fun nb2 =>
              gc.notebook_id == nb2.id &&
              (nb2.name == notebook_id))).flatMap (fun nb2 =>
                (db.assignments.filter (fun a2 =>
                  nb2.assignment_id == a2.id &&
                  (a2.name == assignment_id))).map
                  (fun _ => Grade.score g)))))).sum
      pyDiv score_sum (Notebook.num_submissions db nb)

end Gradebook

/-- C8: on an assignment (or notebook) with zero submissions, every average
score operation returns 0.0 and raises no division-by-zero error. -/
theorem average_scores_zero_submissions (db : DB) (aname nbname : Nat) :
    (∀ a, Gradebook.find_assignment db aname = .ok a →
      Assignment.num_submissions db a = 0 →
      Gradebook.average_assignment_score db aname = .ok 0 ∧
      Gradebook.average_assignment_code_score db aname = .ok 0 ∧
      Gradebook.average_assignment_written_score db aname = .ok 0) ∧
    (∀ nb, Gradebook.find_notebook db nbname aname = .ok nb →
      Notebook.num_submissions db nb = 0 →
      Gradebook.average_notebook_score db nbname aname = .ok 0 ∧
      Gradebook.average_notebook_code_score db nbname aname = .ok 0 ∧
      Gradebook.average_notebook_written_score db nbname aname = .ok 0) := by
  constructor
  · intro a hfind hzero
    refine ⟨?_, ?_, ?_⟩ <;>
      simp [Gradebook.average_assignment_score,
        Gradebook.average_assignment_code_score,
        Gradebook.average_assignment_written_score, hfind, hzero]
  · intro nb hfind hzero
    refine ⟨?_, ?_, ?_⟩ <;>
      simp [Gradebook.average_notebook_score,
        Gradebook.average_notebook_code_score,
        Gradebook.average_notebook_written_score, hfind, hzero]

/-- Witness for C8 on `exDbC2` (assignment named 10 with notebook named 20
and no submissions): all six averages return 0. -/
theorem average_scores_zero_submissions_witness :
    Gradebook.average_assignment_score exDbC2 10 = .ok 0 ∧
    Gradebook.average_assignment_code_score exDbC2 10 = .ok 0 ∧
    Gradebook.average_assignment_written_score exDbC2 10 = .ok 0 ∧
    Gradebook.average_notebook_score exDbC2 20 10 = .ok 0 ∧
    Gradebook.average_notebook_code_score exDbC2 20 10 = .ok 0 ∧
    Gradebook.average_notebook_written_score exDbC2 20 10 = .ok 0 := by
  have h := average_scores_zero_submissions exDbC2 10 20
  have ha := h.1 ⟨1, 10, none⟩ rfl (by decide)
  have hn := h.2 ⟨2, 20, 1⟩ rfl (by decide)
  exact ⟨ha.1, ha.2.1, ha.2.2, hn.1, hn.2.1, hn.2.2⟩

/-! ## The session and transaction model (Gradebook facade mutations)

A SQLAlchemy scoped session holds pending (flushed but uncommitted) state
on top of the committed store.  `commit` validates the constraints and, on
success, makes pending durable; on an IntegrityError/FlushError the
committed store is untouched and the pending state REMAINS dirty until
`rollback` resets it to the committed state.  The facade methods call
`commit` and, in their exception handlers, `rollback` before re-raising
`InvalidEntry` — except where the source forgets to. -/

instance exceptDecEq {ε α : Type} [DecidableEq ε] [DecidableEq α] :
    DecidableEq (Except ε α)
  | Except.error a, Except.error b =>
    if h : a = b then isTrue (by rw [h])
    else isFalse (by intro hc; cases hc; exact h rfl)
  | Except.error _, Except.ok _ => isFalse (by intro hc; cases hc)
  | Except.ok _, Except.error _ => isFalse (by intro hc; cases hc)
  | Except.ok a, Except.ok b =>
    if h : a = b then isTrue (by rw [h])
    else isFalse (by intro hc; cases hc; exact h rfl)

/-- `pairwiseOk p l` checks `p` on every ordered pair of distinct
positions. -/
def pairwiseOk {α : Type} (p : α → α → Bool) : List α → Bool
  | [] => true
  | x :: xs => xs.all (fun y => p x y) && pairwiseOk p xs

/-- The schema's integrity constraints: the unique constraints of every
table and the NOT NULL constraint on `solution_cell.cell_type` (the one
nullable-in-the-embedding column an update can null out). -/
def DB.constraintsOk (db : DB) : Bool :=
  pairwiseOk (fun x y => !(x.name == y.name)) db.assignments &&
  pairwiseOk (fun x y =>
    !(x.name == y.name && x.assignment_id == y.assignment_id)) db.notebooks &&
  pairwiseOk (fun x y =>
    !(x.name == y.name && x.notebook_id == y.notebook_id)) db.grade_cells &&
  pairwiseOk (fun x y =>
    !(x.name == y.name && x.notebook_id == y.notebook_id)) db.solution_cells &&
  db.solution_cells.all (fun c => c.cell_type.isSome) &&
  pairwiseOk (fun x y => !(x.id == y.id)) db.students &&
  pairwiseOk (fun x y =>
    !(x.assignment_id == y.assignment_id && x.student_id == y.student_id))
    db.submitted_assignments &&
  pairwiseOk (fun x y =>
    !(x.notebook_id == y.notebook_id && x.assignment_id == y.assignment_id))
    db.submitted_notebooks &&
  pairwiseOk (fun x y =>
    !(x.cell_id == y.cell_id && x.notebook_id == y.notebook_id)) db.grades &&
  pairwiseOk (fun x y =>
    !(x.cell_id == y.cell_id && x.notebook_id == y.notebook_id)) db.comments

/-- A scoped session: the durable store and the session's pending state. -/
structure Session where
  committed : DB
  pending : DB
deriving DecidableEq, Repr

namespace Gradebook

/-- `find_solution_cell`: lookup by name within a notebook of an
assignment (joins on both foreign keys, filters all three names). -/
def find_solution_cell (db : DB) (name notebook assignment : Nat) :
    Except PyErr SolutionCellRow :=
  match db.solution_cells.find? (fun c => c.name == name &&
      db.notebooks.any (fun nb => nb.id == c.notebook_id &&
        (nb.name == notebook) &&
        db.assignments.any (fun a => a.id == nb.assignment_id &&
          (a.name == assignment)))) with
  | some c => .ok c
  | none => .error PyErr.missingEntry

/-- `add_solution_cell`: find the notebook, insert the row, commit; on an
integrity failure roll back and raise InvalidEntry.  The `cell_type`
keyword argument is `ctKw` (absent means the column stays NULL). -/
def add_solution_cell (s : Session) (name notebook assignment : Nat)
    (ctKw : Option (Option CellType)) :
    (Except PyErr SolutionCellRow) × Session :=
  match find_notebook s.pending notebook assignment with
  | .error e => (.error e, s)
  | .ok nb =>
    let row : SolutionCellRow := ⟨s.pending.next_id, name, nb.id, ctKw.getD none⟩
    let p := { s.pending with
      solution_cells := s.pending.solution_cells ++ [row],
      next_id := s.pending.next_id + 1 }
    if p.constraintsOk then (.ok row, ⟨p, p⟩)
    else (.error PyErr.invalidEntry, ⟨s.committed, s.committed⟩)

/-- `update_or_create_solution_cell` (api.py lines 1039-1072): find the
cell and apply the keyword arguments, creating it when missing.  NOTE: in
the update path's exception handler the source raises `InvalidEntry`
WITHOUT calling `self.db.rollback()` first — the only facade mutation that
skips the rollback — so the session's pending state stays dirty. -/
def update_or_create_solution_cell (s : Session)
    (name notebook assignment : Nat) (ctKw : Option (Option CellType)) :
    (Except PyErr SolutionCellRow) × Session :=
  match find_solution_cell s.pending name notebook assignment with
  | .error _ => add_solution_cell s name notebook assignment ctKw
  | .ok c =>
    let c2 : SolutionCellRow := { c with cell_type := ctKw.getD c.cell_type }
    let p := { s.pending with
      solution_cells := s.pending.solution_cells.map
        (fun x => if x.id == c.id then c2 else x) }
    if p.constraintsOk then (.ok c2, ⟨p, p⟩)
    else (.error PyErr.invalidEntry, ⟨s.committed, p⟩)

end Gradebook

/-! ## C6: rollback before InvalidEntry -/

/-- A clean session over a store with one assignment (name 10), one
notebook (name 20) and one solution cell (name 30, cell_type code). -/
def exDbC6 : DB :=
  { assignments := [⟨1, 10, none⟩]
    notebooks := [⟨2, 20, 1⟩]
    grade_cells := []
    solution_cells := [⟨3, 30, 2, some CellType.code⟩]
    students := []
    submitted_assignments := []
    submitted_notebooks := []
    grades := []
    comments := []
    next_id := 4 }

def exSessionC6 : Session := ⟨exDbC6, exDbC6⟩

/-- C6 failing input: updating the existing solution cell with
`cell_type=None` violates the NOT NULL constraint, `commit` fails, and
`update_or_create_solution_cell` raises InvalidEntry WITHOUT rolling back:
the session is left with pending state different from the committed
store, contradicting the claim that the transaction is rolled back before
the error is raised. -/
theorem update_or_create_solution_cell_no_rollback :
    (Gradebook.update_or_create_solution_cell exSessionC6 30 20 10
      (some none)).1 = .error PyErr.invalidEntry ∧
    (Gradebook.update_or_create_solution_cell exSessionC6 30 20 10
      (some none)).2.pending
      ≠ (Gradebook.update_or_create_solution_cell exSessionC6 30 20 10
        (some none)).2.committed ∧
    (Gradebook.update_or_create_solution_cell exSessionC6 30 20 10
      (some none)).2.committed = exDbC6 := by
  decide

/-! ## C5: add_submission mirrors the assignment structure -/

/-- The inner loop `for grade_cell in notebook.grade_cells:
Grade(cell=grade_cell, notebook=nb)` — one Grade per grade cell, both
scores unset, with fresh ids. -/
def mkGrades : List GradeCellRow → Nat → Nat → List GradeRow
  | [], _, _ => []
  | c :: cs, snId, base =>
    ⟨base, c.id, snId, none, none⟩ :: mkGrades cs snId (base + 1)

/-- The inner loop `for solution_cell in notebook.solution_cells:
Comment(cell=solution_cell, notebook=nb)` — one Comment per solution cell;
the `comment` text column is not passed, so it stays NULL. -/
def mkComments : List SolutionCellRow → Nat → Nat → List CommentRow
  | [], _, _ => []
  | c :: cs, snId, base =>
    ⟨base, c.id, snId, none⟩ :: mkComments cs snId (base + 1)

/-- The outer loop of `add_submission`: one SubmittedNotebook per notebook
of the assignment, each with its grades and comments.  `n` is the fresh-id
counter (uuid4 in the source yields distinct opaque ids; the counter is the
embedding's fresh-id supply). -/
def mirror (db : DB) (saId : Nat) :
    List NotebookRow → Nat →
    List SubmittedNotebookRow × List GradeRow × List CommentRow × Nat
  | [], n => ([], [], [], n)
  | nb :: rest, n =>
    match mirror db saId rest
      (n + 1 + (db.grade_cells.filter (fun c => c.notebook_id == nb.id)).length
        + (db.solution_cells.filter (fun c => c.notebook_id == nb.id)).length) with
    | (sns, gs, cs, nf) =>
      (⟨n, nb.id, saId⟩ :: sns,
       mkGrades (db.grade_cells.filter (fun c => c.notebook_id == nb.id)) n
         (n + 1) ++ gs,
       mkComments (db.solution_cells.filter (fun c => c.notebook_id == nb.id))
         n (n + 1
           + (db.grade_cells.filter (fun c => c.notebook_id == nb.id)).length)
         ++ cs,
       nf)

/-- `add_submission` (api.py lines 1076-1124): find the assignment and the
student, create the SubmittedAssignment and mirror the whole assignment
structure, then commit; on an integrity failure roll back and raise
InvalidEntry. -/
def Gradebook.add_submission (s : Session) (assignment student : Nat)
    (timestamp extension : Option Int) :
    (Except PyErr SubmittedAssignmentRow) × Session :=
  match Gradebook.find_assignment s.pending assignment with
  | .error e => (.error e, s)
  | .ok a =>
    match Gradebook.find_student s.pending student with
    | .error e => (.error e, s)
    | .ok st =>
      let saId := s.pending.next_id
      let sa : SubmittedAssignmentRow := ⟨saId, a.id, st.id, timestamp, extension⟩
      let out := mirror s.pending saId
        (s.pending.notebooks.filter (fun nb => nb.assignment_id == a.id))
        (saId + 1)
      let p := { s.pending with
        submitted_assignments := s.pending.submitted_assignments ++ [sa],
        submitted_notebooks := s.pending.submitted_notebooks ++ out.1,
        grades := s.pending.grades ++ out.2.1,
        comments := s.pending.comments ++ out.2.2.1,
        next_id := out.2.2.2 }
      if p.constraintsOk then (.ok sa, ⟨p, p⟩)
      else (.error PyErr.invalidEntry, ⟨s.committed, s.committed⟩)

/-- The structure C5 asserts of a submission graph: one SubmittedNotebook
per Notebook of the assignment, exactly one Grade per GradeCell of each
template notebook with both scores unset, and exactly one Comment per
SolutionCell whose text is `text`. -/
def submissionMirrorOk (db : DB) (sa : SubmittedAssignmentRow)
    (text : Option String) : Prop :=
  (∀ nb ∈ db.notebooks, nb.assignment_id = sa.assignment_id →
    (db.submitted_notebooks.filter (fun sn =>
      sn.assignment_id == sa.id && sn.notebook_id == nb.id)).length = 1) ∧
  (∀ sn ∈ db.submitted_notebooks, sn.assignment_id = sa.id →
    (∃ nb ∈ db.notebooks, sn.notebook_id = nb.id ∧
      nb.assignment_id = sa.assignment_id) ∧
    (∀ c ∈ db.grade_cells, c.notebook_id = sn.notebook_id →
      (db.grades.filter (fun g =>
        g.notebook_id == sn.id && g.cell_id == c.id)).length = 1) ∧
    (∀ g ∈ db.grades, g.notebook_id = sn.id →
      g.auto_score = none ∧ g.manual_score = none ∧
      ∃ c ∈ db.grade_cells, g.cell_id = c.id ∧
        c.notebook_id = sn.notebook_id) ∧
    (∀ c ∈ db.solution_cells, c.notebook_id = sn.notebook_id →
      (db.comments.filter (fun cm =>
        cm.notebook_id == sn.id && cm.cell_id == c.id)).length = 1) ∧
    (∀ cm ∈ db.comments, cm.notebook_id = sn.id →
      cm.comment = text ∧
      ∃ c ∈ db.solution_cells, cm.cell_id = c.id ∧
        c.notebook_id = sn.notebook_id))

/-- A clean session holding one assignment (name 10) with one notebook
(name 20) containing one solution cell (name 30), and one student (id 40). -/
def exDbC5 : DB :=
  { assignments := [⟨1, 10, none⟩]
    notebooks := [⟨2, 20, 1⟩]
    grade_cells := []
    solution_cells := [⟨3, 30, 2, some CellType.markdown⟩]
    students := [⟨40, none, none, none⟩]
    submitted_assignments := []
    submitted_notebooks := []
    grades := []
    comments := []
    next_id := 5 }

def exSessionC5 : Session := ⟨exDbC5, exDbC5⟩

/-- Counterexample to C5 as stated: `add_submission` succeeds, but the
Comment created for the solution cell has its text column NULL (the source
passes no `comment=` argument), not the empty string the claim asserts. -/
theorem claimed_add_submission_false :
    (Gradebook.add_submission exSessionC5 10 40 none none).1
      = .ok ⟨5, 1, 40, none, none⟩ ∧
    ¬ submissionMirrorOk
        (Gradebook.add_submission exSessionC5 10 40 none none).2.committed
        ⟨5, 1, 40, none, none⟩ (some ("")) := by
  constructor
  · decide
  · intro h
    have hsn := (h.2 ⟨6, 2, 5⟩ (by decide) rfl).2.2.2.2
    have hcm := (hsn ⟨7, 3, 6, none⟩ (by decide) rfl).1
    simp at hcm

/-! ### Counting lemmas for the mirrored structure -/

theorem length_filter_beq_eq_count_map {α : Type} (l : List α) (f : α → Nat)
    (k : Nat) :
    (l.filter (fun x => f x == k)).length = (l.map f).count k := by
  induction l with
  | nil => simp
  | cons a t ih =>
    by_cases h : f a = k
    · simp [List.filter_cons, h, List.count_cons, ih]
    · simp [List.filter_cons, h, List.count_cons, ih]

theorem count_map_key_eq_one {α : Type} (l : List α) (f : α → Nat)
    (hpw : l.Pairwise (fun x y => f x ≠ f y)) (a : α) (ha : a ∈ l) :
    (l.map f).count (f a) = 1 := by
  induction l with
  | nil => cases ha
  | cons b t ih =>
    obtain ⟨hhead, htail⟩ := List.pairwise_cons.mp hpw
    rcases List.mem_cons.mp ha with rfl | hat
    · have hzero : (t.map f).count (f a) = 0 := by
        apply List.count_eq_zero.mpr
        intro hmem
        obtain ⟨x, hx, hfx⟩ := List.mem_map.mp hmem
        exact hhead x hx hfx.symm
      simp [List.count_cons, hzero]
    · have hne : (f b == f a) = false := by
        cases hv : f b == f a with
        | false => rfl
        | true => exact absurd (beq_iff_eq.mp hv) (hhead a hat)
      simp [List.count_cons, hne, ih htail hat]

theorem eq_of_mem_pairwise_key {α β : Type} {l : List α} {key : α → β}
    (hpw : l.Pairwise (fun x y => key x ≠ key y)) {a b : α}
    (ha : a ∈ l) (hb : b ∈ l) (hk : key a = key b) : a = b := by
  induction l with
  | nil => cases ha
  | cons c t ih =>
    obtain ⟨hhead, htail⟩ := List.pairwise_cons.mp hpw
    rcases List.mem_cons.mp ha with rfl | hat
    · rcases List.mem_cons.mp hb with rfl | hbt
      · rfl
      · exact absurd hk (hhead b hbt)
    · rcases List.mem_cons.mp hb with rfl | hbt
      · exact absurd hk.symm (hhead a hat)
      · exact ih htail hat hbt

theorem mkGrades_mem {cells : List GradeCellRow} {snId base : Nat}
    {g : GradeRow} (hg : g ∈ mkGrades cells snId base) :
    g.notebook_id = snId ∧ g.auto_score = none ∧ g.manual_score = none ∧
    ∃ c ∈ cells, g.cell_id = c.id := by
  induction cells generalizing base with
  | nil => cases hg
  | cons c cs ih =>
    rcases List.mem_cons.mp hg with rfl | ht
    · exact ⟨rfl, rfl, rfl, c, List.mem_cons_self c cs, rfl⟩
    · obtain ⟨h1, h2, h3, c2, hc2, h4⟩ := ih ht
      exact ⟨h1, h2, h3, c2, List.mem_cons_of_mem _ hc2, h4⟩

theorem mkGrades_map_cell {cells : List GradeCellRow} {snId base : Nat} :
    (mkGrades cells snId base).map (fun g => g.cell_id)
      = cells.map (fun c => c.id) := by
  induction cells generalizing base with
  | nil => rfl
  | cons c cs ih => simp [mkGrades, ih]

theorem mkComments_mem {cells : List SolutionCellRow} {snId base : Nat}
    {cm : CommentRow} (hcm : cm ∈ mkComments cells snId base) :
    cm.notebook_id = snId ∧ cm.comment = none ∧
    ∃ c ∈ cells, cm.cell_id = c.id := by
  induction cells generalizing base with
  | nil => cases hcm
  | cons c cs ih =>
    rcases List.mem_cons.mp hcm with rfl | ht
    · exact ⟨rfl, rfl, c, List.mem_cons_self c cs, rfl⟩
    · obtain ⟨h1, h2, c2, hc2, h3⟩ := ih ht
      exact ⟨h1, h2, c2, List.mem_cons_of_mem _ hc2, h3⟩

theorem mkComments_map_cell {cells : List SolutionCellRow} {snId base : Nat} :
    (mkComments cells snId base).map (fun cm => cm.cell_id)
      = cells.map (fun c => c.id) := by
  induction cells generalizing base with
  | nil => rfl
  | cons c cs ih => simp [mkComments, ih]

/-- Everything `mirror` guarantees about the rows it creates: fresh,
distinct ids; one submitted notebook per notebook; grades/comments bound
to their submitted notebook with rows matching the template cells
one-for-one; scores and comment text unset. -/
theorem mirror_spec (db : DB) (saId : Nat) :
    ∀ (nbs : List NotebookRow) (n : Nat), saId < n →
    n ≤ (mirror db saId nbs n).2.2.2 ∧
    (∀ sn ∈ (mirror db saId nbs n).1,
      sn.assignment_id = saId ∧ n ≤ sn.id ∧
        sn.id < (mirror db saId nbs n).2.2.2 ∧
        ∃ nb ∈ nbs, sn.notebook_id = nb.id) ∧
    ((mirror db saId nbs n).1.map (fun sn => sn.notebook_id)
      = nbs.map (fun nb => nb.id)) ∧
    List.Pairwise (fun x y => x.id ≠ y.id) (mirror db saId nbs n).1 ∧
    (∀ g ∈ (mirror db saId nbs n).2.1,
      g.auto_score = none ∧ g.manual_score = none ∧
      ∃ sn ∈ (mirror db saId nbs n).1, g.notebook_id = sn.id ∧
        ∃ c ∈ db.grade_cells, g.cell_id = c.id ∧
          c.notebook_id = sn.notebook_id) ∧
    (∀ cm ∈ (mirror db saId nbs n).2.2.1,
      cm.comment = none ∧
      ∃ sn ∈ (mirror db saId nbs n).1, cm.notebook_id = sn.id ∧
        ∃ c ∈ db.solution_cells, cm.cell_id = c.id ∧
          c.notebook_id = sn.notebook_id) ∧
    (∀ sn ∈ (mirror db saId nbs n).1,
      ((mirror db saId nbs n).2.1.filter
        (fun g => g.notebook_id == sn.id)).map (fun g => g.cell_id)
        = (db.grade_cells.filter
            (fun c => c.notebook_id == sn.notebook_id)).map (fun c => c.id) ∧
      ((mirror db saId nbs n).2.2.1.filter
        (fun cm => cm.notebook_id == sn.id)).map (fun cm => cm.cell_id)
        = (db.solution_cells.filter
            (fun c => c.notebook_id == sn.notebook_id)).map
            (fun c => c.id)) := by
  intro nbs
  induction nbs with
  | nil =>
    intro n hn
    simp [mirror]
  | cons nb rest ih =>
    intro n hn
    rcases hout : mirror db saId rest
      (n + 1 + (db.grade_cells.filter (fun c => c.notebook_id == nb.id)).length
        + (db.solution_cells.filter (fun c => c.notebook_id == nb.id)).length)
      with ⟨sns, gs, cs, nf⟩
    have hred : mirror db saId (nb :: rest) n
        = (⟨n, nb.id, saId⟩ :: sns,
           mkGrades (db.grade_cells.filter
             (fun c => c.notebook_id == nb.id)) n (n + 1) ++ gs,
           mkComments (db.solution_cells.filter
             (fun c => c.notebook_id == nb.id)) n
             (n + 1 + (db.grade_cells.filter
               (fun c => c.notebook_id == nb.id)).length) ++ cs,
           nf) := by
      simp [mirror, hout]
    have hk : saId < n + 1
        + (db.grade_cells.filter (fun c => c.notebook_id == nb.id)).length
        + (db.solution_cells.filter (fun c => c.notebook_id == nb.id)).length := by
      omega
    have IH := ih _ hk
    rw [hout] at IH
    dsimp only at IH
    obtain ⟨IH1, IH2, IH3, IH4, IH5, IH6, IH7⟩ := IH
    rw [hred]
    dsimp only
    refine ⟨?_, ?_, ?_, ?_, ?_, ?_, ?_⟩
    · omega
    · intro sn hsn
      rcases List.mem_cons.mp hsn with rfl | hsns
      · exact ⟨rfl, Nat.le_refl n, by show n < nf; omega,
          nb, List.mem_cons_self nb rest, rfl⟩
      · obtain ⟨h1, h2, h3, nb2, hnb2, h4⟩ := IH2 sn hsns
        exact ⟨h1, by omega, h3, nb2, List.mem_cons_of_mem _ hnb2, h4⟩
    · simp [IH3]
    · refine List.pairwise_cons.mpr ⟨?_, IH4⟩
      intro y hy
      have := (IH2 y hy).2.1
      show n ≠ y.id
      omega
    · intro g hg
      rcases List.mem_append.mp hg with hmk | hgs
      · obtain ⟨h1, h2, h3, c, hc, h4⟩ := mkGrades_mem hmk
        have hcmem := List.mem_filter.mp hc
        refine ⟨h2, h3, ⟨n, nb.id, saId⟩, List.mem_cons_self _ _, h1, c,
          hcmem.1, h4, beq_iff_eq.mp hcmem.2⟩
      · obtain ⟨h1, h2, sn, hsn, h3, c, hc, h4, h5⟩ := IH5 g hgs
        exact ⟨h1, h2, sn, List.mem_cons_of_mem _ hsn, h3, c, hc, h4, h5⟩
    · intro cm hcm
      rcases List.mem_append.mp hcm with hmk | hcs
      · obtain ⟨h1, h2, c, hc, h3⟩ := mkComments_mem hmk
        have hcmem := List.mem_filter.mp hc
        refine ⟨h2, ⟨n, nb.id, saId⟩, List.mem_cons_self _ _, h1, c,
          hcmem.1, h3, beq_iff_eq.mp hcmem.2⟩
      · obtain ⟨h1, sn, hsn, h2, c, hc, h3, h4⟩ := IH6 cm hcs
        exact ⟨h1, sn, List.mem_cons_of_mem _ hsn, h2, c, hc, h3, h4⟩
    · intro sn hsn
      rcases List.mem_cons.mp hsn with rfl | hsns
      · constructor
        · rw [List.filter_append]
          have hmkall : (mkGrades (db.grade_cells.filter
              (fun c => c.notebook_id == nb.id)) n (n + 1)).filter
              (fun g => g.notebook_id == (n : Nat)) =
              mkGrades (db.grade_cells.filter
                (fun c => c.notebook_id == nb.id)) n (n + 1) :=
            List.filter_eq_self.mpr (fun g hg =>
              beq_iff_eq.mpr (mkGrades_mem hg).1)
          have hgsnil : gs.filter (fun g => g.notebook_id == (n : Nat)) = [] := by
            apply List.filter_eq_nil_iff.mpr
            intro g hg hpred
            obtain ⟨_, _, sn2, hsn2, hid, _⟩ := IH5 g hg
            have := (IH2 sn2 hsn2).2.1
            have heq := beq_iff_eq.mp hpred
            omega
          simp only [hmkall, hgsnil, List.append_nil]
          exact mkGrades_map_cell
        · rw [List.filter_append]
          have hmkall : (mkComments (db.solution_cells.filter
              (fun c => c.notebook_id == nb.id)) n
              (n + 1 + (db.grade_cells.filter
                (fun c => c.notebook_id == nb.id)).length)).filter
              (fun cm => cm.notebook_id == (n : Nat)) =
              mkComments (db.solution_cells.filter
                (fun c => c.notebook_id == nb.id)) n
                (n + 1 + (db.grade_cells.filter
                  (fun c => c.notebook_id == nb.id)).length) :=
            List.filter_eq_self.mpr (fun cm hcm =>
              beq_iff_eq.mpr (mkComments_mem hcm).1)
          have hcsnil : cs.filter (fun cm => cm.notebook_id == (n : Nat)) = [] := by
            apply List.filter_eq_nil_iff.mpr
            intro cm hcm hpred
            obtain ⟨_, sn2, hsn2, hid, _⟩ := IH6 cm hcm
            have := (IH2 sn2 hsn2).2.1
            have heq := beq_iff_eq.mp hpred
            omega
          simp only [hmkall, hcsnil, List.append_nil]
          exact mkComments_map_cell
      · have hbound := (IH2 sn hsns).2.1
        constructor
        · rw [List.filter_append]
          have hmknil : (mkGrades (db.grade_cells.filter
              (fun c => c.notebook_id == nb.id)) n (n + 1)).filter
              (fun g => g.notebook_id == sn.id) = [] := by
            apply List.filter_eq_nil_iff.mpr
            intro g hg hpred
            have h1 := (mkGrades_mem hg).1
            have heq := beq_iff_eq.mp hpred
            omega
          rw [hmknil, List.nil_append]
          exact (IH7 sn hsns).1
        · rw [List.filter_append]
          have hmknil : (mkComments (db.solution_cells.filter
              (fun c => c.notebook_id == nb.id)) n
              (n + 1 + (db.grade_cells.filter
                (fun c => c.notebook_id == nb.id)).length)).filter
              (fun cm => cm.notebook_id == sn.id) = [] := by
            apply List.filter_eq_nil_iff.mpr
            intro cm hcm hpred
            have h1 := (mkComments_mem hcm).1
            have heq := beq_iff_eq.mp hpred
            omega
          rw [hmknil, List.nil_append]
          exact (IH7 sn hsns).2

/-- Fresh-id discipline: every submission-graph id already in the store is
below the fresh-id counter (uuid4 ids are never reused; the counter is the
embedding's supply of fresh ids). -/
def DB.freshIds (db : DB) : Prop :=
  (∀ x ∈ db.submitted_assignments, x.id < db.next_id) ∧
  (∀ x ∈ db.submitted_notebooks, x.id < db.next_id ∧
    x.assignment_id < db.next_id) ∧
  (∀ x ∈ db.grades, x.notebook_id < db.next_id) ∧
  (∀ x ∈ db.comments, x.notebook_id < db.next_id)

/-- C5 amended: after a successful `add_submission`, the new
SubmittedAssignment has one SubmittedNotebook per Notebook of the
assignment, exactly one Grade per GradeCell of each template notebook with
both scores unset, and exactly one Comment per SolutionCell — whose text is
unset (NULL), not the empty string. -/
theorem add_submission_structure (s : Session) (aname sname : Nat)
    (ts ext : Option Int)
    (hfresh : s.pending.freshIds)
    (hgcid : s.pending.grade_cells.Pairwise (fun x y => x.id ≠ y.id))
    (hscid : s.pending.solution_cells.Pairwise (fun x y => x.id ≠ y.id))
    (hnbid : s.pending.notebooks.Pairwise (fun x y => x.id ≠ y.id))
    (sa : SubmittedAssignmentRow) (r : Session)
    (hrun : Gradebook.add_submission s aname sname ts ext = (.ok sa, r)) :
    submissionMirrorOk r.committed sa none := by
  obtain ⟨hfSA, hfSN, hfG, hfC⟩ := hfresh
  unfold Gradebook.add_submission at hrun
  cases hfa : Gradebook.find_assignment s.pending aname with
  | error e => rw [hfa] at hrun; simp at hrun
  | ok a =>
  rw [hfa] at hrun
  cases hfs : Gradebook.find_student s.pending sname with
  | error e => rw [hfs] at hrun; simp at hrun
  | ok st =>
  rw [hfs] at hrun
  dsimp only at hrun
  split at hrun
  case isFalse => simp at hrun
  case isTrue hconstr =>
  rw [Prod.mk.injEq] at hrun
  obtain ⟨hsa, hr⟩ := hrun
  rw [Except.ok.injEq] at hsa
  subst hsa
  subst hr
  unfold submissionMirrorOk
  dsimp only
  set N := s.pending.next_id with hNdef
  set nbs := s.pending.notebooks.filter (fun nb => nb.assignment_id == a.id)
    with hnbsdef
  set out := mirror s.pending N nbs (N + 1) with houtdef
  obtain ⟨M1, M2, M3, M4, M5, M6, M7⟩ :=
    mirror_spec s.pending N nbs (N + 1) (Nat.lt_succ_self _)
  constructor
  · -- one SubmittedNotebook per Notebook of the assignment
    intro nb hnb hnbaid
    rw [List.filter_append, List.length_append]
    have hold0 : (s.pending.submitted_notebooks.filter (fun sn =>
        sn.assignment_id == N && sn.notebook_id == nb.id)).length = 0 := by
      rw [List.length_eq_zero]
      apply List.filter_eq_nil_iff.mpr
      intro sn hsn hpred
      rw [Bool.and_eq_true] at hpred
      have hf := (hfSN sn hsn).2
      have he := beq_iff_eq.mp hpred.1
      omega
    have hcongr : ∀ x ∈ out.1,
        (x.assignment_id == N && x.notebook_id == nb.id)
          = (x.notebook_id == nb.id) := by
      intro x hx
      rw [beq_iff_eq.mpr (M2 x hx).1, Bool.true_and]
    have hlen := length_filter_beq_eq_count_map out.1
      (fun sn => sn.notebook_id) nb.id
    have hcount := count_map_key_eq_one nbs (fun nb2 => nb2.id)
      (List.Pairwise.sublist (List.filter_sublist _) hnbid) nb
      (List.mem_filter.mpr ⟨hnb, beq_iff_eq.mpr hnbaid⟩)
    rw [hold0, List.filter_congr hcongr, hlen, M3, hcount]
  · -- per submitted notebook of the new submission
    intro sn hsn hsnaid
    rcases List.mem_append.mp hsn with holdsn | hnew
    · have hlt := (hfSN sn holdsn).2
      exact absurd hsnaid (fun hcontra => by omega)
    obtain ⟨hsnsa, hsnlo, hsnhi, nb, hnbmem, hsnnb⟩ := M2 sn hnew
    have hnbmem2 := List.mem_filter.mp hnbmem
    refine ⟨⟨nb, hnbmem2.1, hsnnb, beq_iff_eq.mp hnbmem2.2⟩, ?_, ?_, ?_, ?_⟩
    · -- exactly one Grade per GradeCell of the template notebook
      intro c hc hcnb
      rw [List.filter_append, List.length_append]
      have hold0 : (s.pending.grades.filter (fun g =>
          g.notebook_id == sn.id && g.cell_id == c.id)).length = 0 := by
        rw [List.length_eq_zero]
        apply List.filter_eq_nil_iff.mpr
        intro g hg hpred
        rw [Bool.and_eq_true] at hpred
        have hf := hfG g hg
        have he := beq_iff_eq.mp hpred.1
        omega
      have hcomm : ∀ g ∈ out.2.1,
          (g.notebook_id == sn.id && g.cell_id == c.id)
            = (g.cell_id == c.id && g.notebook_id == sn.id) :=
        fun g _ => Bool.and_comm _ _
      have hsplit := @List.filter_filter GradeRow
        (fun g => g.cell_id == c.id) (fun g => g.notebook_id == sn.id)
        out.2.1
      have hlen := length_filter_beq_eq_count_map
        (out.2.1.filter (fun g => g.notebook_id == sn.id))
        (fun g => g.cell_id) c.id
      have hcount := count_map_key_eq_one
        (s.pending.grade_cells.filter
          (fun c2 => c2.notebook_id == sn.notebook_id))
        (fun c2 => c2.id)
        (List.Pairwise.sublist (List.filter_sublist _) hgcid) c
        (List.mem_filter.mpr ⟨hc, beq_iff_eq.mpr hcnb⟩)
      rw [hold0, List.filter_congr hcomm, ← hsplit, hlen, (M7 sn hnew).1,
        hcount]
    · -- every Grade of the submitted notebook is blank and matches a cell
      intro g hg hgnb
      rcases List.mem_append.mp hg with holdg | hnewg
      · have hf := hfG g holdg
        exact absurd hgnb (fun hcontra => by omega)
      · obtain ⟨h1, h2, sn2, hsn2, hid2, c, hcmem, hcid, hcnb⟩ := M5 g hnewg
        have hsneq : sn2 = sn := @eq_of_mem_pairwise_key SubmittedNotebookRow Nat
          out.1 (fun x => x.id) M4 sn2 sn hsn2 hnew (hid2.symm.trans hgnb)
        rw [hsneq] at hcnb
        exact ⟨h1, h2, c, hcmem, hcid, hcnb⟩
    · -- exactly one Comment per SolutionCell of the template notebook
      intro c hc hcnb
      rw [List.filter_append, List.length_append]
      have hold0 : (s.pending.comments.filter (fun cm =>
          cm.notebook_id == sn.id && cm.cell_id == c.id)).length = 0 := by
        rw [List.length_eq_zero]
        apply List.filter_eq_nil_iff.mpr
        intro cm hcm hpred
        rw [Bool.and_eq_true] at hpred
        have hf := hfC cm hcm
        have he := beq_iff_eq.mp hpred.1
        omega
      have hcomm : ∀ cm ∈ out.2.2.1,
          (cm.notebook_id == sn.id && cm.cell_id == c.id)
            = (cm.cell_id == c.id && cm.notebook_id == sn.id) :=
        fun cm _ => Bool.and_comm _ _
      have hsplit := @List.filter_filter CommentRow
        (fun cm => cm.cell_id == c.id) (fun cm => cm.notebook_id == sn.id)
        out.2.2.1
      have hlen := length_filter_beq_eq_count_map
        (out.2.2.1.filter (fun cm => cm.notebook_id == sn.id))
        (fun cm => cm.cell_id) c.id
      have hcount := count_map_key_eq_one
        (s.pending.solution_cells.filter
          (fun c2 => c2.notebook_id == sn.notebook_id))
        (fun c2 => c2.id)
        (List.Pairwise.sublist (List.filter_sublist _) hscid) c
        (List.mem_filter.mpr ⟨hc, beq_iff_eq.mpr hcnb⟩)
      rw [hold0, List.filter_congr hcomm, ← hsplit, hlen, (M7 sn hnew).2,
        hcount]
    · -- every Comment of the submitted notebook has NULL text
      intro cm hcm hcmnb
      rcases List.mem_append.mp hcm with holdc | hnewc
      · have hf := hfC cm holdc
        exact absurd hcmnb (fun hcontra => by omega)
      · obtain ⟨h1, sn2, hsn2, hid2, c, hcmem, hcid, hcnb⟩ := M6 cm hnewc
        have hsneq : sn2 = sn := @eq_of_mem_pairwise_key SubmittedNotebookRow Nat
          out.1 (fun x => x.id) M4 sn2 sn hsn2 hnew (hid2.symm.trans hcmnb)
        rw [hsneq] at hcnb
        exact ⟨h1, c, hcmem, hcid, hcnb⟩

/-- Witness for the amended C5: the concrete `add_submission` run on
`exSessionC5` produces a correctly mirrored submission graph with NULL
comment text. -/
theorem add_submission_structure_witness :
    submissionMirrorOk
      (Gradebook.add_submission exSessionC5 10 40 none none).2.committed
      ⟨5, 1, 40, none, none⟩ none :=
  add_submission_structure exSessionC5 10 40 none none
    (by refine ⟨?_, ?_, ?_, ?_⟩ <;> decide) (by decide) (by decide)
    (by decide) ⟨5, 1, 40, none, none⟩
    (Gradebook.add_submission exSessionC5 10 40 none none).2 rfl

/-! ## C7: cascading delete of an assignment -/

namespace Gradebook

/-- `find_submission`: lookup of a student's submission of an assignment
(joins Assignment and Student, filters the assignment name and student
id). -/
def find_submission (db : DB) (assignment student : Nat) :
    Except PyErr SubmittedAssignmentRow :=
  match db.submitted_assignments.find? (fun sa =>
      db.assignments.any (fun a => a.id == sa.assignment_id &&
        (a.name == assignment)) &&
      db.students.any (fun st => st.id == sa.student_id &&
        (st.id == student))) with
  | some sa => .ok sa
  | none => .error PyErr.missingEntry

end Gradebook

/-- The row deletions `remove_submission` performs: every Grade and
Comment of the submission's SubmittedNotebooks, the SubmittedNotebooks,
then the SubmittedAssignment itself. -/
def removeSubmissionRow (db : DB) (sa0 : SubmittedAssignmentRow) : DB :=
  { db with
    grades := db.grades.filter (fun g =>
      !(((db.submitted_notebooks.filter (fun sn =>
        sn.assignment_id == sa0.id)).map (fun sn => sn.id)).contains
        g.notebook_id)),
    comments := db.comments.filter (fun cm =>
      !(((db.submitted_notebooks.filter (fun sn =>
        sn.assignment_id == sa0.id)).map (fun sn => sn.id)).contains
        cm.notebook_id)),
    submitted_notebooks := db.submitted_notebooks.filter (fun sn =>
      !(sn.assignment_id == sa0.id)),
    submitted_assignments := db.submitted_assignments.filter (fun x =>
      !(x.id == sa0.id)) }

namespace Gradebook

/-- `remove_submission` (api.py lines 1193-1219): find the submission,
delete its grades, comments and submitted notebooks, delete the row, then
commit (rolling back and raising InvalidEntry on an integrity failure). -/
def remove_submission (db : DB) (assignment student : Nat) :
    Except PyErr DB :=
  match find_submission db assignment student with
  | .error e => .error e
  | .ok sa0 =>
    let db2 := removeSubmissionRow db sa0
    if db2.constraintsOk then .ok db2 else .error PyErr.invalidEntry

end Gradebook

/-- The loop `for submission in assignment.submissions:
self.remove_submission(name, submission.student.id)` — each iteration is
its own find-and-commit. -/
def removeSubmissionsLoop (assignment : Nat) :
    List SubmittedAssignmentRow → DB → Except PyErr DB
  | [], d => .ok d
  | sa :: rest, d =>
    match Gradebook.remove_submission d assignment sa.student_id with
    | .error e => .error e
    | .ok d2 => removeSubmissionsLoop assignment rest d2

namespace Gradebook

/-- `remove_assignment` (api.py lines 757-785): remove every submission of
the assignment, then delete its grade cells, solution cells and notebooks,
then the assignment row, and commit. -/
def remove_assignment (db : DB) (name : Nat) : Except PyErr DB :=
  match find_assignment db name with
  | .error e => .error e
  | .ok a =>
    match removeSubmissionsLoop name
      (db.submitted_assignments.filter (fun sa =>
        sa.assignment_id == a.id)) db with
    | .error e => .error e
    | .ok d =>
      let db2 := { d with
        grade_cells := d.grade_cells.filter (fun c =>
          !(((d.notebooks.filter (fun nb =>
            nb.assignment_id == a.id)).map (fun nb => nb.id)).contains
            c.notebook_id)),
        solution_cells := d.solution_cells.filter (fun c =>
          !(((d.notebooks.filter (fun nb =>
            nb.assignment_id == a.id)).map (fun nb => nb.id)).contains
            c.notebook_id)),
        notebooks := d.notebooks.filter (fun nb =>
          !(nb.assignment_id == a.id)),
        assignments := d.assignments.filter (fun x => !(x.id == a.id)) }
      if db2.constraintsOk then .ok db2 else .error PyErr.invalidEntry

end Gradebook

/-- A SubmittedAssignment row `x` is what `find_submission d aname sid`
looks for: the student matches and `x`'s assignment row is named `aname`. -/
def saMatches (d : DB) (x : SubmittedAssignmentRow) (aname sid : Nat) : Prop :=
  x.student_id = sid ∧
  ∃ a2 ∈ d.assignments, x.assignment_id = a2.id ∧ a2.name = aname

/-- What a successful `remove_submission` did: some matching stored
submission was found and its graph deleted. -/
theorem remove_submission_ok {db : DB} {aname sid : Nat} {d2 : DB}
    (h : Gradebook.remove_submission db aname sid = .ok d2) :
    ∃ sa0 ∈ db.submitted_assignments,
      saMatches db sa0 aname sid ∧ d2 = removeSubmissionRow db sa0 := by
  unfold Gradebook.remove_submission Gradebook.find_submission at h
  cases hfind : db.submitted_assignments.find? (fun sa =>
      db.assignments.any (fun a => a.id == sa.assignment_id &&
        (a.name == aname)) &&
      db.students.any (fun st => st.id == sa.student_id &&
        (st.id == sid))) with
  | none => rw [hfind] at h; simp at h
  | some sa0 =>
    rw [hfind] at h
    dsimp only at h
    split at h
    case isFalse => simp at h
    case isTrue =>
    rw [Except.ok.injEq] at h
    have hmem := List.mem_of_find?_eq_some hfind
    have hpred := List.find?_some hfind
    rw [Bool.and_eq_true] at hpred
    obtain ⟨hany, hst⟩ := hpred
    obtain ⟨a2, ha2, ha2p⟩ := List.any_eq_true.mp hany
    rw [Bool.and_eq_true] at ha2p
    obtain ⟨st, hstmem, hstp⟩ := List.any_eq_true.mp hst
    rw [Bool.and_eq_true] at hstp
    refine ⟨sa0, hmem, ⟨?_, a2, ha2, (beq_iff_eq.mp ha2p.1).symm,
      beq_iff_eq.mp ha2p.2⟩, h.symm⟩
    have h1 := beq_iff_eq.mp hstp.1
    have h2 := beq_iff_eq.mp hstp.2
    omega

/-- What the submission-removal loop guarantees: the assignment/notebook/
cell tables are untouched, submission-graph rows are only ever deleted,
and after the loop no surviving submitted assignment, submitted notebook,
grade or comment belongs to a submission matching `(aname, student)` for
any processed student. -/
theorem removeSubmissionsLoop_spec (aname : Nat) :
    ∀ (subs : List SubmittedAssignmentRow) (d d1 : DB),
    removeSubmissionsLoop aname subs d = .ok d1 →
    d.assignments.Pairwise (fun x y => x.name ≠ y.name) →
    d.submitted_assignments.Pairwise (fun x y => x.id ≠ y.id) →
    d.submitted_assignments.Pairwise (fun x y =>
      (x.assignment_id, x.student_id) ≠ (y.assignment_id, y.student_id)) →
    (d1.assignments = d.assignments ∧ d1.notebooks = d.notebooks ∧
     d1.grade_cells = d.grade_cells ∧
     d1.solution_cells = d.solution_cells) ∧
    ((∀ x ∈ d1.submitted_assignments, x ∈ d.submitted_assignments) ∧
     (∀ x ∈ d1.submitted_notebooks, x ∈ d.submitted_notebooks) ∧
     (∀ x ∈ d1.grades, x ∈ d.grades) ∧
     (∀ x ∈ d1.comments, x ∈ d.comments)) ∧
    (∀ sa2 ∈ subs, ∀ x ∈ d1.submitted_assignments,
      ¬ saMatches d x aname sa2.student_id) ∧
    (∀ sa2 ∈ subs, ∀ sn ∈ d1.submitted_notebooks,
      ∀ x ∈ d.submitted_assignments, sn.assignment_id = x.id →
      ¬ saMatches d x aname sa2.student_id) ∧
    (∀ sa2 ∈ subs, ∀ g ∈ d1.grades, ∀ sn ∈ d.submitted_notebooks,
      g.notebook_id = sn.id → ∀ x ∈ d.submitted_assignments,
      sn.assignment_id = x.id → ¬ saMatches d x aname sa2.student_id) ∧
    (∀ sa2 ∈ subs, ∀ cm ∈ d1.comments, ∀ sn ∈ d.submitted_notebooks,
      cm.notebook_id = sn.id → ∀ x ∈ d.submitted_assignments,
      sn.assignment_id = x.id → ¬ saMatches d x aname sa2.student_id) := by
  intro subs
  induction subs with
  | nil =>
    intro d d1 hrun hnames hids hpairs
    unfold removeSubmissionsLoop at hrun
    rw [Except.ok.injEq] at hrun
    subst hrun
    exact ⟨⟨rfl, rfl, rfl, rfl⟩,
      ⟨fun x hx => hx, fun x hx => hx, fun x hx => hx, fun x hx => hx⟩,
      fun sa2 h2 => absurd h2 (List.not_mem_nil sa2),
      fun sa2 h2 => absurd h2 (List.not_mem_nil sa2),
      fun sa2 h2 => absurd h2 (List.not_mem_nil sa2),
      fun sa2 h2 => absurd h2 (List.not_mem_nil sa2)⟩
  | cons hd rest ih =>
    intro d d1 hrun hnames hids hpairs
    unfold removeSubmissionsLoop at hrun
    cases hrs : Gradebook.remove_submission d aname hd.student_id with
    | error e => rw [hrs] at hrun; simp at hrun
    | ok d2 =>
    rw [hrs] at hrun
    dsimp only at hrun
    obtain ⟨sa0, hsa0mem, hsa0match, hd2⟩ := remove_submission_ok hrs
    subst hd2
    have hnames2 : (removeSubmissionRow d sa0).assignments.Pairwise
        (fun x y => x.name ≠ y.name) := hnames
    have hids2 : (removeSubmissionRow d sa0).submitted_assignments.Pairwise
        (fun x y => x.id ≠ y.id) :=
      List.Pairwise.sublist (List.filter_sublist _) hids
    have hpairs2 : (removeSubmissionRow d sa0).submitted_assignments.Pairwise
        (fun x y => (x.assignment_id, x.student_id)
          ≠ (y.assignment_id, y.student_id)) :=
      List.Pairwise.sublist (List.filter_sublist _) hpairs
    obtain ⟨⟨e1, e2, e3, e4⟩, ⟨m1, m2, m3, m4⟩, c1, c2, c3, c4⟩ :=
      ih (removeSubmissionRow d sa0) d1 hrun hnames2 hids2 hpairs2
    -- memberships into the pre-step state
    have m1d : ∀ x ∈ d1.submitted_assignments,
        x ∈ d.submitted_assignments ∧ x.id ≠ sa0.id := by
      intro x hx
      have hxf : x ∈ d.submitted_assignments.filter
          (fun z => !(z.id == sa0.id)) := m1 x hx
      have := List.mem_filter.mp hxf
      refine ⟨this.1, ?_⟩
      have hb := this.2
      cases hbe : (x.id == sa0.id) with
      | true => rw [hbe] at hb; cases hb
      | false => exact fun hc => by rw [beq_iff_eq.mpr hc] at hbe; cases hbe
    have m2d : ∀ x ∈ d1.submitted_notebooks,
        x ∈ d.submitted_notebooks ∧ x.assignment_id ≠ sa0.id := by
      intro x hx
      have hxf : x ∈ d.submitted_notebooks.filter
          (fun z => !(z.assignment_id == sa0.id)) := m2 x hx
      have := List.mem_filter.mp hxf
      refine ⟨this.1, ?_⟩
      have hb := this.2
      cases hbe : (x.assignment_id == sa0.id) with
      | true => rw [hbe] at hb; cases hb
      | false => exact fun hc => by rw [beq_iff_eq.mpr hc] at hbe; cases hbe
    have m3d : ∀ x ∈ d1.grades, x ∈ d.grades ∧
        ∀ sn ∈ d.submitted_notebooks, x.notebook_id = sn.id →
          sn.assignment_id ≠ sa0.id := by
      intro x hx
      have hxf : x ∈ d.grades.filter (fun g =>
          !(((d.submitted_notebooks.filter (fun sn =>
            sn.assignment_id == sa0.id)).map (fun sn => sn.id)).contains
            g.notebook_id)) := m3 x hx
      have hm := List.mem_filter.mp hxf
      refine ⟨hm.1, ?_⟩
      intro sn hsn hxsn hcontra
      have hmem : x.notebook_id ∈ (d.submitted_notebooks.filter (fun sn2 =>
          sn2.assignment_id == sa0.id)).map (fun sn2 => sn2.id) :=
        List.mem_map.mpr ⟨sn, List.mem_filter.mpr
          ⟨hsn, beq_iff_eq.mpr hcontra⟩, hxsn.symm⟩
      have hcon : ((d.submitted_notebooks.filter (fun sn2 =>
          sn2.assignment_id == sa0.id)).map (fun sn2 => sn2.id)).contains
          x.notebook_id = true := List.elem_eq_true_of_mem hmem
      have hb := hm.2
      rw [hcon] at hb
      simp at hb
    have m4d : ∀ x ∈ d1.comments, x ∈ d.comments ∧
        ∀ sn ∈ d.submitted_notebooks, x.notebook_id = sn.id →
          sn.assignment_id ≠ sa0.id := by
      intro x hx
      have hxf : x ∈ d.comments.filter (fun cm =>
          !(((d.submitted_notebooks.filter (fun sn =>
            sn.assignment_id == sa0.id)).map (fun sn => sn.id)).contains
            cm.notebook_id)) := m4 x hx
      have hm := List.mem_filter.mp hxf
      refine ⟨hm.1, ?_⟩
      intro sn hsn hxsn hcontra
      have hmem : x.notebook_id ∈ (d.submitted_notebooks.filter (fun sn2 =>
          sn2.assignment_id == sa0.id)).map (fun sn2 => sn2.id) :=
        List.mem_map.mpr ⟨sn, List.mem_filter.mpr
          ⟨hsn, beq_iff_eq.mpr hcontra⟩, hxsn.symm⟩
      have hcon : ((d.submitted_notebooks.filter (fun sn2 =>
          sn2.assignment_id == sa0.id)).map (fun sn2 => sn2.id)).contains
          x.notebook_id = true := List.elem_eq_true_of_mem hmem
      have hb := hm.2
      rw [hcon] at hb
      simp at hb
    -- any stored submission matching (aname, hd.student_id) is sa0
    have hxeq : ∀ x ∈ d.submitted_assignments,
        saMatches d x aname hd.student_id → x = sa0 := by
      intro x hx hmat
      obtain ⟨hxs, a3, ha3, hxa, ha3n⟩ := hmat
      obtain ⟨h0s, a2, ha2, h0a, ha2n⟩ := hsa0match
      have haeq : a3 = a2 :=
        eq_of_mem_pairwise_key hnames ha3 ha2 (ha3n.trans ha2n.symm)
      apply eq_of_mem_pairwise_key hpairs hx hsa0mem
      rw [Prod.mk.injEq]
      exact ⟨by rw [hxa, haeq, ← h0a], by rw [hxs, h0s]⟩
    refine ⟨⟨e1, e2, e3, e4⟩,
      ⟨fun x hx => (m1d x hx).1, fun x hx => (m2d x hx).1,
       fun x hx => (m3d x hx).1, fun x hx => (m4d x hx).1⟩, ?_, ?_, ?_, ?_⟩
    · intro sa2 hsa2 x hx hmat
      rcases List.mem_cons.mp hsa2 with rfl | hrest
      · exact (m1d x hx).2 (by rw [hxeq x (m1d x hx).1 hmat])
      · exact c1 sa2 hrest x hx hmat
    · intro sa2 hsa2 sn hsn x hx hsnx hmat
      rcases List.mem_cons.mp hsa2 with rfl | hrest
      · have hx0 : x = sa0 := hxeq x hx hmat
        exact (m2d sn hsn).2 (by rw [hsnx, hx0])
      · by_cases hxid : x.id = sa0.id
        · have hx0 : x = sa0 := eq_of_mem_pairwise_key hids hx hsa0mem hxid
          exact (m2d sn hsn).2 (by rw [hsnx, hx0])
        · have hxR : x ∈ (removeSubmissionRow d sa0).submitted_assignments :=
            List.mem_filter.mpr ⟨hx, by
              cases hbe : (x.id == sa0.id) with
              | true => exact absurd (beq_iff_eq.mp hbe) hxid
              | false => rfl⟩
          exact c2 sa2 hrest sn hsn x hxR hsnx hmat
    · intro sa2 hsa2 g hg sn hsn hgsn x hx hsnx hmat
      rcases List.mem_cons.mp hsa2 with rfl | hrest
      · have hx0 : x = sa0 := hxeq x hx hmat
        exact (m3d g hg).2 sn hsn hgsn (by rw [hsnx, hx0])
      · by_cases hsnid : sn.assignment_id = sa0.id
        · exact (m3d g hg).2 sn hsn hgsn hsnid
        · have hsnR : sn ∈ (removeSubmissionRow d sa0).submitted_notebooks :=
            List.mem_filter.mpr ⟨hsn, by
              cases hbe : (sn.assignment_id == sa0.id) with
              | true => exact absurd (beq_iff_eq.mp hbe) hsnid
              | false => rfl⟩
        -- need x in the post-step state as well
          by_cases hxid : x.id = sa0.id
          · exact hsnid (hsnx.trans hxid)
          · have hxR : x ∈ (removeSubmissionRow d sa0).submitted_assignments :=
              List.mem_filter.mpr ⟨hx, by
                cases hbe : (x.id == sa0.id) with
                | true => exact absurd (beq_iff_eq.mp hbe) hxid
                | false => rfl⟩
            exact c3 sa2 hrest g hg sn hsnR hgsn x hxR hsnx hmat
    · intro sa2 hsa2 cm hcm sn hsn hcmsn x hx hsnx hmat
      rcases List.mem_cons.mp hsa2 with rfl | hrest
      · have hx0 : x = sa0 := hxeq x hx hmat
        exact (m4d cm hcm).2 sn hsn hcmsn (by rw [hsnx, hx0])
      · by_cases hsnid : sn.assignment_id = sa0.id
        · exact (m4d cm hcm).2 sn hsn hcmsn hsnid
        · have hsnR : sn ∈ (removeSubmissionRow d sa0).submitted_notebooks :=
            List.mem_filter.mpr ⟨hsn, by
              cases hbe : (sn.assignment_id == sa0.id) with
              | true => exact absurd (beq_iff_eq.mp hbe) hsnid
              | false => rfl⟩
          by_cases hxid : x.id = sa0.id
          · exact hsnid (hsnx.trans hxid)
          · have hxR : x ∈ (removeSubmissionRow d sa0).submitted_assignments :=
              List.mem_filter.mpr ⟨hx, by
                cases hbe : (x.id == sa0.id) with
                | true => exact absurd (beq_iff_eq.mp hbe) hxid
                | false => rfl⟩
            exact c4 sa2 hrest cm hcm sn hsnR hcmsn x hxR hsnx hmat

theorem find_assignment_ok {db : DB} {name : Nat} {a : AssignmentRow}
    (h : Gradebook.find_assignment db name = .ok a) :
    a ∈ db.assignments ∧ a.name = name := by
  unfold Gradebook.find_assignment at h
  cases hf : db.assignments.find? (fun x => x.name == name) with
  | none => rw [hf] at h; simp at h
  | some a2 =>
    rw [hf] at h
    rw [Except.ok.injEq] at h
    subst h
    have hp := List.find?_some hf
    exact ⟨List.mem_of_find?_eq_some hf, beq_iff_eq.mp hp⟩

/-- C7: after a successful `remove_assignment(A)` no Notebook, GradeCell,
SolutionCell, SubmittedAssignment, SubmittedNotebook, Grade or Comment
that referenced A directly or transitively (through the pre-state rows)
remains.  The hypotheses are the schema's uniqueness constraints and
referential consistency of the submission graph, all maintained by the
facade. -/
theorem remove_assignment_cascade (db : DB) (name : Nat) (a : AssignmentRow)
    (db2 : DB)
    (hnames : db.assignments.Pairwise (fun x y => x.name ≠ y.name))
    (hids : db.submitted_assignments.Pairwise (fun x y => x.id ≠ y.id))
    (hpairs : db.submitted_assignments.Pairwise (fun x y =>
      (x.assignment_id, x.student_id) ≠ (y.assignment_id, y.student_id)))
    (hwfsn : ∀ sn ∈ db.submitted_notebooks, ∀ nb ∈ db.notebooks,
      sn.notebook_id = nb.id → ∃ x ∈ db.submitted_assignments,
        sn.assignment_id = x.id ∧ x.assignment_id = nb.assignment_id)
    (hwfg : ∀ g ∈ db.grades, ∀ c ∈ db.grade_cells, g.cell_id = c.id →
      ∃ sn ∈ db.submitted_notebooks, g.notebook_id = sn.id ∧
        sn.notebook_id = c.notebook_id)
    (hwfcm : ∀ cm ∈ db.comments, ∀ c ∈ db.solution_cells, cm.cell_id = c.id →
      ∃ sn ∈ db.submitted_notebooks, cm.notebook_id = sn.id ∧
        sn.notebook_id = c.notebook_id)
    (hfind : Gradebook.find_assignment db name = .ok a)
    (hrun : Gradebook.remove_assignment db name = .ok db2) :
    (∀ nb ∈ db2.notebooks, nb.assignment_id ≠ a.id) ∧
    (∀ c ∈ db2.grade_cells, ∀ nb ∈ db.notebooks, c.notebook_id = nb.id →
      nb.assignment_id ≠ a.id) ∧
    (∀ c ∈ db2.solution_cells, ∀ nb ∈ db.notebooks, c.notebook_id = nb.id →
      nb.assignment_id ≠ a.id) ∧
    (∀ x ∈ db2.submitted_assignments, x.assignment_id ≠ a.id) ∧
    (∀ sn ∈ db2.submitted_notebooks,
      (∀ x ∈ db.submitted_assignments, sn.assignment_id = x.id →
        x.assignment_id ≠ a.id) ∧
      (∀ nb ∈ db.notebooks, sn.notebook_id = nb.id →
        nb.assignment_id ≠ a.id)) ∧
    (∀ g ∈ db2.grades,
      (∀ sn ∈ db.submitted_notebooks, g.notebook_id = sn.id →
        (∀ x ∈ db.submitted_assignments, sn.assignment_id = x.id →
          x.assignment_id ≠ a.id) ∧
        (∀ nb ∈ db.notebooks, sn.notebook_id = nb.id →
          nb.assignment_id ≠ a.id)) ∧
      (∀ c ∈ db.grade_cells, g.cell_id = c.id →
        ∀ nb ∈ db.notebooks, c.notebook_id = nb.id →
          nb.assignment_id ≠ a.id)) ∧
    (∀ cm ∈ db2.comments,
      (∀ sn ∈ db.submitted_notebooks, cm.notebook_id = sn.id →
        (∀ x ∈ db.submitted_assignments, sn.assignment_id = x.id →
          x.assignment_id ≠ a.id) ∧
        (∀ nb ∈ db.notebooks, sn.notebook_id = nb.id →
          nb.assignment_id ≠ a.id)) ∧
      (∀ c ∈ db.solution_cells, cm.cell_id = c.id →
        ∀ nb ∈ db.notebooks, c.notebook_id = nb.id →
          nb.assignment_id ≠ a.id)) := by
  obtain ⟨hamem, haname⟩ := find_assignment_ok hfind
  unfold Gradebook.remove_assignment at hrun
  rw [hfind] at hrun
  dsimp only at hrun
  cases hloop : removeSubmissionsLoop name
      (db.submitted_assignments.filter (fun sa =>
        sa.assignment_id == a.id)) db with
  | error e => rw [hloop] at hrun; simp at hrun
  | ok d =>
  rw [hloop] at hrun
  dsimp only at hrun
  split at hrun
  case isFalse => simp at hrun
  case isTrue =>
  rw [Except.ok.injEq] at hrun
  subst hrun
  obtain ⟨⟨e1, e2, e3, e4⟩, ⟨m1, m2, m3, m4⟩, c1, c2, c3, c4⟩ :=
    removeSubmissionsLoop_spec name _ db d hloop hnames hids hpairs
  -- any submission of A matches (name, its own student)
  have hmatch : ∀ x ∈ db.submitted_assignments, x.assignment_id = a.id →
      saMatches db x name x.student_id :=
    fun x _ hxa => ⟨rfl, a, hamem, hxa, haname⟩
  have hsubs : ∀ x ∈ db.submitted_assignments, x.assignment_id = a.id →
      x ∈ db.submitted_assignments.filter (fun sa =>
        sa.assignment_id == a.id) :=
    fun x hx hxa => List.mem_filter.mpr ⟨hx, beq_iff_eq.mpr hxa⟩
  -- the surviving submitted notebooks never belong to A
  have hsnfree : ∀ sn ∈ d.submitted_notebooks,
      (∀ x ∈ db.submitted_assignments, sn.assignment_id = x.id →
        x.assignment_id ≠ a.id) ∧
      (∀ nb ∈ db.notebooks, sn.notebook_id = nb.id →
        nb.assignment_id ≠ a.id) := by
    intro sn hsn
    have hxpart : ∀ x ∈ db.submitted_assignments, sn.assignment_id = x.id →
        x.assignment_id ≠ a.id := by
      intro x hx hsnx hxa
      exact c2 x (hsubs x hx hxa) sn hsn x hx hsnx (hmatch x hx hxa)
    refine ⟨hxpart, ?_⟩
    intro nb hnb hsnnb hnba
    obtain ⟨x, hx, hsnx, hxa⟩ := hwfsn sn (m2 sn hsn) nb hnb hsnnb
    exact hxpart x hx hsnx (hxa.trans hnba)
  have hgfree : ∀ g ∈ d.grades,
      ∀ sn ∈ db.submitted_notebooks, g.notebook_id = sn.id →
        (∀ x ∈ db.submitted_assignments, sn.assignment_id = x.id →
          x.assignment_id ≠ a.id) ∧
        (∀ nb ∈ db.notebooks, sn.notebook_id = nb.id →
          nb.assignment_id ≠ a.id) := by
    intro g hg sn hsn hgsn
    have hxpart : ∀ x ∈ db.submitted_assignments, sn.assignment_id = x.id →
        x.assignment_id ≠ a.id := by
      intro x hx hsnx hxa
      exact c3 x (hsubs x hx hxa) g hg sn hsn hgsn x hx hsnx (hmatch x hx hxa)
    refine ⟨hxpart, ?_⟩
    intro nb hnb hsnnb hnba
    obtain ⟨x, hx, hsnx, hxa⟩ := hwfsn sn hsn nb hnb hsnnb
    exact hxpart x hx hsnx (hxa.trans hnba)
  have hcmfree : ∀ cm ∈ d.comments,
      ∀ sn ∈ db.submitted_notebooks, cm.notebook_id = sn.id →
        (∀ x ∈ db.submitted_assignments, sn.assignment_id = x.id →
          x.assignment_id ≠ a.id) ∧
        (∀ nb ∈ db.notebooks, sn.notebook_id = nb.id →
          nb.assignment_id ≠ a.id) := by
    intro cm hcm sn hsn hcmsn
    have hxpart : ∀ x ∈ db.submitted_assignments, sn.assignment_id = x.id →
        x.assignment_id ≠ a.id := by
      intro x hx hsnx hxa
      exact c4 x (hsubs x hx hxa) cm hcm sn hsn hcmsn x hx hsnx
        (hmatch x hx hxa)
    refine ⟨hxpart, ?_⟩
    intro nb hnb hsnnb hnba
    obtain ⟨x, hx, hsnx, hxa⟩ := hwfsn sn hsn nb hnb hsnnb
    exact hxpart x hx hsnx (hxa.trans hnba)
  refine ⟨?_, ?_, ?_, ?_, ?_, ?_, ?_⟩
  · -- notebooks of A are deleted
    intro nb hnb
    have := (List.mem_filter.mp hnb).2
    intro hcontra
    rw [beq_iff_eq.mpr hcontra] at this
    cases this
  · -- grade cells of A's notebooks are deleted
    intro c hc nb hnb hcnb hnba
    have hm := List.mem_filter.mp hc
    have hmem : c.notebook_id ∈ (d.notebooks.filter (fun nb2 =>
        nb2.assignment_id == a.id)).map (fun nb2 => nb2.id) :=
      List.mem_map.mpr ⟨nb, List.mem_filter.mpr
        ⟨by rw [e2]; exact hnb, beq_iff_eq.mpr hnba⟩, hcnb.symm⟩
    have hcon : ((d.notebooks.filter (fun nb2 =>
        nb2.assignment_id == a.id)).map (fun nb2 => nb2.id)).contains
        c.notebook_id = true := List.elem_eq_true_of_mem hmem
    have hb := hm.2
    rw [hcon] at hb
    cases hb
  · -- solution cells of A's notebooks are deleted
    intro c hc nb hnb hcnb hnba
    have hm := List.mem_filter.mp hc
    have hmem : c.notebook_id ∈ (d.notebooks.filter (fun nb2 =>
        nb2.assignment_id == a.id)).map (fun nb2 => nb2.id) :=
      List.mem_map.mpr ⟨nb, List.mem_filter.mpr
        ⟨by rw [e2]; exact hnb, beq_iff_eq.mpr hnba⟩, hcnb.symm⟩
    have hcon : ((d.notebooks.filter (fun nb2 =>
        nb2.assignment_id == a.id)).map (fun nb2 => nb2.id)).contains
        c.notebook_id = true := List.elem_eq_true_of_mem hmem
    have hb := hm.2
    rw [hcon] at hb
    cases hb
  · -- submissions of A are deleted
    intro x hx hxa
    exact c1 x (hsubs x (m1 x hx) hxa) x hx (hmatch x (m1 x hx) hxa)
  · exact hsnfree
  · -- surviving grades reference nothing of A
    intro g hg
    refine ⟨hgfree g hg, ?_⟩
    intro c hc hgc nb hnb hcnb hnba
    obtain ⟨sn, hsn, hgsn, hsnc⟩ := hwfg g (m3 g hg) c hc hgc
    exact (hgfree g hg sn hsn hgsn).2 nb hnb (hsnc.trans hcnb) hnba
  · -- surviving comments reference nothing of A
    intro cm hcm
    refine ⟨hcmfree cm hcm, ?_⟩
    intro c hc hcmc nb hnb hcnb hnba
    obtain ⟨sn, hsn, hcmsn, hsnc⟩ := hwfcm cm (m4 cm hcm) c hc hcmc
    exact (hcmfree cm hcm sn hsn hcmsn).2 nb hnb (hsnc.trans hcnb) hnba

/-- A database with one assignment, one notebook, one grade cell, one
solution cell, one student and one full submission graph. -/
def exDbC7 : DB :=
  { assignments := [⟨1, 10, none⟩]
    notebooks := [⟨2, 20, 1⟩]
    grade_cells := [⟨3, 30, 1, CellType.code, 2⟩]
    solution_cells := [⟨4, 31, 2, some CellType.markdown⟩]
    students := [⟨40, none, none, none⟩]
    submitted_assignments := [⟨5, 1, 40, none, none⟩]
    submitted_notebooks := [⟨6, 2, 5⟩]
    grades := [⟨7, 3, 6, none, none⟩]
    comments := [⟨8, 4, 6, none⟩]
    next_id := 9 }

/-- Witness for C7: on `exDbC7`, removing assignment 10 deletes the whole
graph (only the student remains), and the cascade theorem applies. -/
theorem remove_assignment_cascade_witness :
    (∀ nb ∈ ([] : List NotebookRow), nb.assignment_id ≠ 1) ∧
    (∀ c ∈ ([] : List GradeCellRow), ∀ nb ∈ exDbC7.notebooks,
      c.notebook_id = nb.id → nb.assignment_id ≠ 1) ∧
    (∀ c ∈ ([] : List SolutionCellRow), ∀ nb ∈ exDbC7.notebooks,
      c.notebook_id = nb.id → nb.assignment_id ≠ 1) ∧
    (∀ x ∈ ([] : List SubmittedAssignmentRow), x.assignment_id ≠ 1) ∧
    (∀ sn ∈ ([] : List SubmittedNotebookRow),
      (∀ x ∈ exDbC7.submitted_assignments, sn.assignment_id = x.id →
        x.assignment_id ≠ 1) ∧
      (∀ nb ∈ exDbC7.notebooks, sn.notebook_id = nb.id →
        nb.assignment_id ≠ 1)) ∧
    (∀ g ∈ ([] : List GradeRow),
      (∀ sn ∈ exDbC7.submitted_notebooks, g.notebook_id = sn.id →
        (∀ x ∈ exDbC7.submitted_assignments, sn.assignment_id = x.id →
          x.assignment_id ≠ 1) ∧
        (∀ nb ∈ exDbC7.notebooks, sn.notebook_id = nb.id →
          nb.assignment_id ≠ 1)) ∧
      (∀ c ∈ exDbC7.grade_cells, g.cell_id = c.id →
        ∀ nb ∈ exDbC7.notebooks, c.notebook_id = nb.id →
          nb.assignment_id ≠ 1)) ∧
    (∀ cm ∈ ([] : List CommentRow),
      (∀ sn ∈ exDbC7.submitted_notebooks, cm.notebook_id = sn.id →
        (∀ x ∈ exDbC7.submitted_assignments, sn.assignment_id = x.id →
          x.assignment_id ≠ 1) ∧
        (∀ nb ∈ exDbC7.notebooks, sn.notebook_id = nb.id →
          nb.assignment_id ≠ 1)) ∧
      (∀ c ∈ exDbC7.solution_cells, cm.cell_id = c.id →
        ∀ nb ∈ exDbC7.notebooks, c.notebook_id = nb.id →
          nb.assignment_id ≠ 1)) :=
  remove_assignment_cascade exDbC7 10 ⟨1, 10, none⟩
    ⟨[], [], [], [], [⟨40, none, none, none⟩], [], [], [], [], 9⟩
    (by decide) (by decide) (by decide) (by decide) (by decide) (by decide)
    rfl rfl

/-! ## C10: bulk report queries vs per-entity accessors -/

/-- The numeric output of one `student_dicts` row / `Student.to_dict`.
The claim concerns the numeric results; `first_name`, `last_name` and
`email` are copied verbatim from the student row by both computations. -/
structure StudentDictRow where
  id : Nat
  score : Rat
  max_score : Rat
deriving DecidableEq, Repr

/-- Per-entity `Student.to_dict` (api.py lines 156-164), numeric fields. -/
def Student.to_dict (db : DB) (s : StudentRow) : StudentDictRow :=
  ⟨s.id, Student.score db s, Student.max_score db s⟩

/-- The grades joined to a student through SubmittedAssignment and
SubmittedNotebook: the `scores` subquery's join of `student_dicts`,
grouped by student. -/
def studentJoinedGrades (db : DB) (s : StudentRow) : List GradeRow :=
  (db.submitted_assignments.filter (fun sa => sa.student_id == s.id)).flatMap
    (fun sa =>
      (db.submitted_notebooks.filter (fun sn =>
        sn.assignment_id == sa.id)).flatMap (fun sn =>
          db.grades.filter (fun g => g.notebook_id == sn.id)))

/-- `student_dicts` (api.py lines 1634-1658): the `scores` subquery inner
joins Student-SubmittedAssignment-SubmittedNotebook-Grade and groups by
student; the full query LEFT JOINs it to Student, cross joins GradeCell
(there is no join condition between Student and GradeCell!), groups by
Student.id, and selects `coalesce(scores.c.score, 0.0)` and
`sum(GradeCell.max_score)`.  When the grade_cell table is empty the cross
product is empty and NO rows at all are returned; otherwise each student
appears once, with the global sum of all grade cells' max_score. -/
def Gradebook.student_dicts (db : DB) : List StudentDictRow :=
  if db.grade_cells.isEmpty then []
  else
    db.students.map (fun s =>
      ⟨s.id,
       if (studentJoinedGrades db s).isEmpty then 0
       else ((studentJoinedGrades db s).map Grade.score).sum,
       (db.grade_cells.map (fun c => c.max_score)).sum⟩)

/-- The numeric output of one `notebook_submission_dicts` row /
`SubmittedNotebook.to_dict`.  `score` comes from a coalesced sum and is
never NULL; `max_score` and the code/written cuts are NULL-able in at
least one of the two computations, hence `Option`. -/
structure SubNbDictRow where
  id : Nat
  score : Rat
  max_score : Option Rat
  code_score : Option Rat
  max_code_score : Option Rat
  written_score : Option Rat
  max_written_score : Option Rat
  needs_manual_grade : Bool
  failed_tests : Bool
deriving DecidableEq, Repr

/-- Per-entity `SubmittedNotebook.to_dict` (api.py lines 233-246),
numeric fields. -/
def SubmittedNotebook.to_dict (db : DB) (sn : SubmittedNotebookRow) :
    SubNbDictRow :=
  ⟨sn.id,
   SubmittedNotebook.score db sn,
   SubmittedNotebook.max_score db sn,
   some (SubmittedNotebook.code_score db sn),
   SubmittedNotebook.max_code_score db sn,
   some (SubmittedNotebook.written_score db sn),
   SubmittedNotebook.max_written_score db sn,
   SubmittedNotebook.needs_manual_grade db sn,
   SubmittedNotebook.failed_tests db sn⟩

/-- The Grade-GradeCell join pairs of one submitted notebook. -/
def snGradePairs (db : DB) (sn : SubmittedNotebookRow) :
    List (GradeRow × GradeCellRow) :=
  (db.grades.filter (fun g => g.notebook_id == sn.id)).flatMap (fun g =>
    (db.grade_cells.filter (fun c => c.id == g.cell_id)).map (fun c => (g, c)))

/-- The pairs restricted to one cell type: the code/written subqueries'
`filter(GradeCell.cell_type == ...)`. -/
def snGradePairsOfType (db : DB) (sn : SubmittedNotebookRow) (t : CellType) :
    List (GradeRow × GradeCellRow) :=
  (snGradePairs db sn).filter (fun p => p.2.cell_type == t)

/-- The subqueries of `notebook_submission_dicts` join the chain
SubmittedNotebook-SubmittedAssignment-Student and
SubmittedNotebook-Notebook-Assignment; a submitted notebook with a broken
chain contributes no subquery row. -/
def snChainOk (db : DB) (sn : SubmittedNotebookRow) : Bool :=
  db.submitted_assignments.any (fun sa => sn.assignment_id == sa.id &&
    db.students.any (fun st => st.id == sa.student_id)) &&
  db.notebooks.any (fun nb => sn.notebook_id == nb.id &&
    db.assignments.any (fun a => nb.assignment_id == a.id))

/-- The code/written subquery value for one submitted notebook: NULL when
the group is empty (it is an inner join), otherwise the sum of scores and
the sum of cell max_scores over the group. -/
def snTypeScores (db : DB) (sn : SubmittedNotebookRow) (t : CellType) :
    Option (Rat × Rat) :=
  if snChainOk db sn && !(snGradePairsOfType db sn t).isEmpty then
    some (((snGradePairsOfType db sn t).map (fun p => Grade.score p.1)).sum,
          ((snGradePairsOfType db sn t).map (fun p => p.2.max_score)).sum)
  else none

/-- The full query's row scope: submitted notebooks joined to their
submission (with an existing student) and to a notebook/assignment with
the requested names.  The query also inner joins Grade and GradeCell and
groups by Student.id; under the schema's unique constraints the student
determines the submitted notebook within this scope, so the embedding
groups by the submitted notebook. -/
def snInScope (db : DB) (nbName aName : Nat) (sn : SubmittedNotebookRow) :
    Bool :=
  db.submitted_assignments.any (fun sa => sn.assignment_id == sa.id &&
    db.students.any (fun st => st.id == sa.student_id)) &&
  db.notebooks.any (fun nb => sn.notebook_id == nb.id && (nb.name == nbName) &&
    db.assignments.any (fun a => nb.assignment_id == a.id &&
      (a.name == aName)))

/-- `notebook_submission_dicts` (api.py lines 1660-1746), numeric fields.
Rows: one per submitted notebook in scope having at least one
Grade-GradeCell pair (the main query inner joins Grade and GradeCell).
`score`/`max_score` are sums over the pairs; the code/written columns come
from the outer-joined subqueries WITHOUT coalesce (NULL when the submitted
notebook has no cell of that type); the two flags are coalesced
exists-subqueries. -/
def Gradebook.notebook_submission_dicts (db : DB) (nbName aName : Nat) :
    List SubNbDictRow :=
  (db.submitted_notebooks.filter (fun sn => snInScope db nbName aName sn &&
    !(snGradePairs db sn).isEmpty)).map (fun sn =>
      ⟨sn.id,
       ((snGradePairs db sn).map (fun p => Grade.score p.1)).sum,
       some (((snGradePairs db sn).map (fun p => p.2.max_score)).sum),
       (snTypeScores db sn CellType.code).map (fun x => x.1),
       (snTypeScores db sn CellType.code).map (fun x => x.2),
       (snTypeScores db sn CellType.markdown).map (fun x => x.1),
       (snTypeScores db sn CellType.markdown).map (fun x => x.2),
       db.grades.any (fun g => g.notebook_id == sn.id &&
         Grade.needs_manual_grade g),
       db.grades.any (fun g => g.notebook_id == sn.id &&
         Grade.failed_tests db g)⟩)

/-- `notebook_submissions` (api.py lines 1240-1261): every submitted
notebook of the named notebook and assignment — the scope over which the
claim compares the two computations row by row. -/
def Gradebook.notebook_submissions (db : DB) (nbName aName : Nat) :
    List SubmittedNotebookRow :=
  db.submitted_notebooks.filter (fun sn =>
    db.notebooks.any (fun nb => nb.id == sn.notebook_id &&
      (nb.name == nbName)) &&
    db.submitted_assignments.any (fun sa => sa.id == sn.assignment_id &&
      db.assignments.any (fun a => a.id == sa.assignment_id &&
        (a.name == aName))))

/-- C10 as the claim states it: the two bulk reports equal the row-by-row
per-entity computations over the same scope. -/
def claimedBulkDicts (db : DB) (nbName aName : Nat) : Prop :=
  Gradebook.student_dicts db = db.students.map (Student.to_dict db) ∧
  Gradebook.notebook_submission_dicts db nbName aName
    = (Gradebook.notebook_submissions db nbName aName).map
        (SubmittedNotebook.to_dict db)

/-- A database with one markdown-only notebook and one graded
submission. -/
def exDbC10 : DB :=
  { assignments := [⟨1, 10, none⟩]
    notebooks := [⟨2, 20, 1⟩]
    grade_cells := [⟨3, 30, 3, CellType.markdown, 2⟩]
    solution_cells := []
    students := [⟨40, none, none, none⟩]
    submitted_assignments := [⟨5, 1, 40, none, none⟩]
    submitted_notebooks := [⟨6, 2, 5⟩]
    grades := [⟨7, 3, 6, some 2, none⟩]
    comments := []
    next_id := 9 }

/-- Counterexample to C10 as stated: the submitted notebook has no code
cells, so `notebook_submission_dicts` reports a NULL `code_score` (the
outer-joined subquery column is not coalesced), while
`SubmittedNotebook.to_dict` reports the coalesced 0.0. -/
theorem claimed_bulk_dicts_false : ¬ claimedBulkDicts exDbC10 20 10 := by
  intro h
  have h2 := congrArg (fun l => l.map (fun r => r.code_score)) h.2
  simp [Gradebook.notebook_submission_dicts, Gradebook.notebook_submissions,
    SubmittedNotebook.to_dict, snTypeScores, snGradePairsOfType,
    snGradePairs, snInScope, snChainOk, SubmittedNotebook.code_score,
    exDbC10] at h2

theorem bool_eq_of_iff {a b : Bool} (h : a = true ↔ b = true) : a = b := by
  cases a <;> cases b <;> simp_all

theorem studentJoined_score_eq (db : DB) (s : StudentRow) :
    ((studentJoinedGrades db s).map Grade.score).sum = Student.score db s := by
  unfold studentJoinedGrades Student.score
  simp only [List.map_flatMap]

theorem snGradePairs_score_eq (db : DB) (sn : SubmittedNotebookRow)
    (hgcid : db.grade_cells.Pairwise (fun x y => x.id ≠ y.id))
    (hgcell : ∀ g ∈ db.grades, g.notebook_id = sn.id →
      ∃ c ∈ db.grade_cells, g.cell_id = c.id) :
    ((snGradePairs db sn).map (fun p => Grade.score p.1)).sum
      = SubmittedNotebook.score db sn := by
  unfold snGradePairs SubmittedNotebook.score
  rw [List.map_flatMap, sum_flatMap_eq]
  apply congrArg List.sum
  apply List.map_congr_left
  intro g hg
  have hgmem := List.mem_filter.mp hg
  obtain ⟨c0, hc0, hc0id⟩ := hgcell g hgmem.1 (beq_iff_eq.mp hgmem.2)
  have hsingle : db.grade_cells.filter (fun c => c.id == g.cell_id) = [c0] :=
    filter_eq_single_of_key _ _ (fun c => c.id) hgcid c0 hc0
      (by intro x; rw [beq_iff_eq, hc0id])
  rw [hsingle]
  simp

theorem snGradePairs_max_eq (db : DB) (sn : SubmittedNotebookRow)
    (hperm : ((snGradePairs db sn).map (fun p => p.2)).Perm
      (db.grade_cells.filter (fun c => c.notebook_id == sn.notebook_id))) :
    ((snGradePairs db sn).map (fun p => p.2.max_score)).sum
      = ((db.grade_cells.filter (fun c =>
          c.notebook_id == sn.notebook_id)).map
          (fun c => c.max_score)).sum := by
  have h2 := (hperm.map (fun c => c.max_score)).sum_eq
  rw [List.map_map] at h2
  exact h2

theorem snGradePairsOfType_eq (db : DB) (sn : SubmittedNotebookRow)
    (t : CellType) :
    snGradePairsOfType db sn t
      = (db.grades.filter (fun g => g.notebook_id == sn.id)).flatMap (fun g =>
          (db.grade_cells.filter (fun c => c.id == g.cell_id &&
            (c.cell_type == t))).map (fun c => (g, c))) := by
  unfold snGradePairsOfType snGradePairs
  rw [List.filter_flatMap]
  congr 1
  funext g
  rw [List.filter_map, List.filter_filter]
  congr 1
  apply List.filter_congr
  intro c _
  show ((c.cell_type == t) && (c.id == g.cell_id))
    = ((c.id == g.cell_id) && (c.cell_type == t))
  exact Bool.and_comm _ _

theorem snGradePairsOfType_score_eq (db : DB) (sn : SubmittedNotebookRow)
    (t : CellType) :
    ((snGradePairsOfType db sn t).map (fun p => Grade.score p.1)).sum
      = ((db.grades.filter (fun g => g.notebook_id == sn.id)).flatMap
          (fun g => (db.grade_cells.filter (fun c => c.id == g.cell_id &&
            (c.cell_type == t))).map (fun _ => Grade.score g))).sum := by
  rw [snGradePairsOfType_eq, List.map_flatMap]
  apply congrArg List.sum
  congr 1
  funext g
  rw [List.map_map]
  rfl

theorem snGradePairsOfType_snd_eq (db : DB) (sn : SubmittedNotebookRow)
    (t : CellType) :
    (snGradePairsOfType db sn t).map (fun p => p.2)
      = ((snGradePairs db sn).map (fun p => p.2)).filter
          (fun c => c.cell_type == t) := by
  unfold snGradePairsOfType
  rw [List.filter_map]
  rfl

theorem snGradePairsOfType_max_eq (db : DB) (sn : SubmittedNotebookRow)
    (t : CellType)
    (hperm : ((snGradePairs db sn).map (fun p => p.2)).Perm
      (db.grade_cells.filter (fun c => c.notebook_id == sn.notebook_id))) :
    ((snGradePairsOfType db sn t).map (fun p => p.2.max_score)).sum
      = (((db.grade_cells.filter (fun c =>
          c.notebook_id == sn.notebook_id)).filter
          (fun c => c.cell_type == t)).map (fun c => c.max_score)).sum := by
  have h2 := ((hperm.filter (fun c => c.cell_type == t)).map
    (fun c => c.max_score)).sum_eq
  rw [← snGradePairsOfType_snd_eq, List.map_map] at h2
  exact h2

/-- C10 amended: the bulk reports match the per-entity computations when the
grade_cell table is non-empty (otherwise `student_dicts` returns no rows at
all), the database is referentially consistent with unique ids, and every
submitted notebook in scope carries exactly the grade cells of its template
notebook and has at least one graded code cell and one graded markdown cell
(otherwise `notebook_submission_dicts` drops the row or reports NULL where
the per-entity accessor coalesces to 0.0). -/
theorem bulk_dicts_match (db : DB) (nbName aName : Nat)
    (hcells : db.grade_cells.isEmpty = false)
    (haid : db.assignments.Pairwise (fun x y => x.id ≠ y.id))
    (hnid : db.notebooks.Pairwise (fun x y => x.id ≠ y.id))
    (hgcid : db.grade_cells.Pairwise (fun x y => x.id ≠ y.id))
    (hnba : ∀ nb ∈ db.notebooks, ∃ a ∈ db.assignments, nb.assignment_id = a.id)
    (hcnb : ∀ c ∈ db.grade_cells, ∃ nb ∈ db.notebooks, c.notebook_id = nb.id)
    (hsast : ∀ sa ∈ db.submitted_assignments,
      ∃ st ∈ db.students, sa.student_id = st.id)
    (hgcell : ∀ g ∈ db.grades, ∃ c ∈ db.grade_cells, g.cell_id = c.id)
    (hsncons : ∀ sn ∈ db.submitted_notebooks,
      ∀ sa ∈ db.submitted_assignments, sn.assignment_id = sa.id →
      ∀ nb ∈ db.notebooks, sn.notebook_id = nb.id →
      sa.assignment_id = nb.assignment_id)
    (hscope : ∀ sn ∈ Gradebook.notebook_submissions db nbName aName,
      ((snGradePairs db sn).map (fun p => p.2)).Perm
        (db.grade_cells.filter (fun c => c.notebook_id == sn.notebook_id)) ∧
      (snGradePairsOfType db sn CellType.code).isEmpty = false ∧
      (snGradePairsOfType db sn CellType.markdown).isEmpty = false) :
    Gradebook.student_dicts db = db.students.map (Student.to_dict db) ∧
    Gradebook.notebook_submission_dicts db nbName aName
      = (Gradebook.notebook_submissions db nbName aName).map
          (SubmittedNotebook.to_dict db) := by
  constructor
  · unfold Gradebook.student_dicts
    have hni : ¬(db.grade_cells.isEmpty = true) := by
      rw [hcells]; exact Bool.false_ne_true
    rw [if_neg hni]
    apply List.map_congr_left
    intro s _
    show (⟨s.id,
       if (studentJoinedGrades db s).isEmpty then 0
       else ((studentJoinedGrades db s).map Grade.score).sum,
       (db.grade_cells.map (fun c => c.max_score)).sum⟩ : StudentDictRow)
      = Student.to_dict db s
    have hmax := student_max_score_total db haid hnid hnba hcnb s
    have hsc : (if (studentJoinedGrades db s).isEmpty then (0 : Rat)
        else ((studentJoinedGrades db s).map Grade.score).sum)
        = Student.score db s := by
      by_cases hE : studentJoinedGrades db s = []
      · rw [hE]
        show (0 : Rat) = Student.score db s
        rw [← studentJoined_score_eq db s, hE]
        simp
      · rw [if_neg (fun h => hE (List.isEmpty_iff.mp h))]
        exact studentJoined_score_eq db s
    unfold Student.to_dict
    rw [hsc, hmax]
    rfl
  · unfold Gradebook.notebook_submission_dicts
    have hfilter : db.submitted_notebooks.filter (fun sn =>
        snInScope db nbName aName sn && !(snGradePairs db sn).isEmpty)
        = Gradebook.notebook_submissions db nbName aName := by
      unfold Gradebook.notebook_submissions
      apply List.filter_congr
      intro sn hsn
      apply bool_eq_of_iff
      constructor
      · intro h
        rw [Bool.and_eq_true] at h
        obtain ⟨hin, _⟩ := h
        unfold snInScope at hin
        rw [Bool.and_eq_true] at hin
        obtain ⟨hsap, hnbp⟩ := hin
        obtain ⟨sa0, hsa0, hsa0p⟩ := List.any_eq_true.mp hsap
        rw [Bool.and_eq_true] at hsa0p
        obtain ⟨hsa0id, _⟩ := hsa0p
        obtain ⟨nb0, hnb0, hnb0p⟩ := List.any_eq_true.mp hnbp
        rw [Bool.and_eq_true, Bool.and_eq_true] at hnb0p
        obtain ⟨⟨hnb0id, hnb0name⟩, hnb0a⟩ := hnb0p
        obtain ⟨a0, ha0, ha0p⟩ := List.any_eq_true.mp hnb0a
        rw [Bool.and_eq_true] at ha0p
        obtain ⟨ha0id, ha0name⟩ := ha0p
        have hc := hsncons sn hsn sa0 hsa0 (beq_iff_eq.mp hsa0id) nb0 hnb0
          (beq_iff_eq.mp hnb0id)
        rw [Bool.and_eq_true]
        constructor
        · exact List.any_eq_true.mpr ⟨nb0, hnb0, by
            rw [Bool.and_eq_true]
            exact ⟨beq_iff_eq.mpr (beq_iff_eq.mp hnb0id).symm, hnb0name⟩⟩
        · exact List.any_eq_true.mpr ⟨sa0, hsa0, by
            rw [Bool.and_eq_true]
            refine ⟨beq_iff_eq.mpr (beq_iff_eq.mp hsa0id).symm, ?_⟩
            exact List.any_eq_true.mpr ⟨a0, ha0, by
              rw [Bool.and_eq_true]
              refine ⟨?_, ha0name⟩
              rw [beq_iff_eq, hc]
              exact (beq_iff_eq.mp ha0id).symm⟩⟩
      · intro h
        have hmem : sn ∈ Gradebook.notebook_submissions db nbName aName :=
          List.mem_filter.mpr ⟨hsn, h⟩
        rw [Bool.and_eq_true] at h
        obtain ⟨hnbp, hsap⟩ := h
        obtain ⟨nb0, hnb0, hnb0p⟩ := List.any_eq_true.mp hnbp
        rw [Bool.and_eq_true] at hnb0p
        obtain ⟨hnb0id, hnb0name⟩ := hnb0p
        obtain ⟨sa0, hsa0, hsa0p⟩ := List.any_eq_true.mp hsap
        rw [Bool.and_eq_true] at hsa0p
        obtain ⟨hsa0id, hsa0a⟩ := hsa0p
        obtain ⟨a0, ha0, ha0p⟩ := List.any_eq_true.mp hsa0a
        rw [Bool.and_eq_true] at ha0p
        obtain ⟨ha0id, ha0name⟩ := ha0p
        obtain ⟨st0, hst0, hst0id⟩ := hsast sa0 hsa0
        have hc := hsncons sn hsn sa0 hsa0 (beq_iff_eq.mp hsa0id).symm nb0 hnb0
          (beq_iff_eq.mp hnb0id).symm
        rw [Bool.and_eq_true]
        constructor
        · unfold snInScope
          rw [Bool.and_eq_true]
          constructor
          · exact List.any_eq_true.mpr ⟨sa0, hsa0, by
              rw [Bool.and_eq_true]
              refine ⟨beq_iff_eq.mpr (beq_iff_eq.mp hsa0id).symm, ?_⟩
              exact List.any_eq_true.mpr ⟨st0, hst0,
                beq_iff_eq.mpr hst0id.symm⟩⟩
          · exact List.any_eq_true.mpr ⟨nb0, hnb0, by
              rw [Bool.and_eq_true, Bool.and_eq_true]
              refine ⟨⟨beq_iff_eq.mpr (beq_iff_eq.mp hnb0id).symm,
                hnb0name⟩, ?_⟩
              exact List.any_eq_true.mpr ⟨a0, ha0, by
                rw [Bool.and_eq_true]
                refine ⟨?_, ha0name⟩
                rw [beq_iff_eq, ← hc]
                exact (beq_iff_eq.mp ha0id).symm⟩⟩
        · have hco := (hscope sn hmem).2.1
          cases hp : (snGradePairs db sn).isEmpty with
          | false => rfl
          | true =>
            exfalso
            have hnil : snGradePairs db sn = [] := List.isEmpty_iff.mp hp
            unfold snGradePairsOfType at hco
            rw [hnil] at hco
            simp at hco
    rw [hfilter]
    apply List.map_congr_left
    intro sn hsnmem
    obtain ⟨hperm, hcode, hmd⟩ := hscope sn hsnmem
    have hsnmem' := hsnmem
    unfold Gradebook.notebook_submissions at hsnmem'
    obtain ⟨hsn, hpred⟩ := List.mem_filter.mp hsnmem'
    rw [Bool.and_eq_true] at hpred
    obtain ⟨hnbp, hsap⟩ := hpred
    obtain ⟨nb0, hnb0, hnb0p⟩ := List.any_eq_true.mp hnbp
    rw [Bool.and_eq_true] at hnb0p
    obtain ⟨hnb0id, hnb0name⟩ := hnb0p
    obtain ⟨sa0, hsa0, hsa0p⟩ := List.any_eq_true.mp hsap
    rw [Bool.and_eq_true] at hsa0p
    obtain ⟨hsa0id, hsa0a⟩ := hsa0p
    obtain ⟨a0, ha0, ha0p⟩ := List.any_eq_true.mp hsa0a
    rw [Bool.and_eq_true] at ha0p
    obtain ⟨ha0id, ha0name⟩ := ha0p
    obtain ⟨st0, hst0, hst0id⟩ := hsast sa0 hsa0
    have hcons := hsncons sn hsn sa0 hsa0 (beq_iff_eq.mp hsa0id).symm nb0 hnb0
      (beq_iff_eq.mp hnb0id).symm
    have hkey : nb0.id = sn.notebook_id := beq_iff_eq.mp hnb0id
    have hchain : snChainOk db sn = true := by
      unfold snChainOk
      rw [Bool.and_eq_true]
      constructor
      · exact List.any_eq_true.mpr ⟨sa0, hsa0, by
          rw [Bool.and_eq_true]
          refine ⟨beq_iff_eq.mpr (beq_iff_eq.mp hsa0id).symm, ?_⟩
          exact List.any_eq_true.mpr ⟨st0, hst0, beq_iff_eq.mpr hst0id.symm⟩⟩
      · exact List.any_eq_true.mpr ⟨nb0, hnb0, by
          rw [Bool.and_eq_true]
          refine ⟨beq_iff_eq.mpr hkey.symm, ?_⟩
          exact List.any_eq_true.mpr ⟨a0, ha0, by
            rw [beq_iff_eq, ← hcons]
            exact (beq_iff_eq.mp ha0id).symm⟩⟩
    have htype : ∀ t : CellType,
        (snGradePairsOfType db sn t).isEmpty = false →
        snTypeScores db sn t
          = some (((snGradePairsOfType db sn t).map
              (fun p => Grade.score p.1)).sum,
            ((snGradePairsOfType db sn t).map (fun p => p.2.max_score)).sum) := by
      intro t hne
      unfold snTypeScores
      rw [if_pos (by rw [hchain, hne]; rfl)]
    have hfind1 : db.notebooks.find? (fun nb => sn.notebook_id == nb.id)
        = some nb0 :=
      find?_eq_of_key db.notebooks _ (fun nb => nb.id) hnid nb0 hnb0
        (by intro x; rw [beq_iff_eq, ← hkey]; exact eq_comm)
    have hfind2 : db.notebooks.find? (fun nb => nb.id == sn.notebook_id)
        = some nb0 :=
      find?_eq_of_key db.notebooks _ (fun nb => nb.id) hnid nb0 hnb0
        (by intro x; rw [beq_iff_eq, ← hkey])
    have hgcellsn : ∀ g ∈ db.grades, g.notebook_id = sn.id →
        ∃ c ∈ db.grade_cells, g.cell_id = c.id := fun g hg _ => hgcell g hg
    have hmaxinner : Notebook.max_score db nb0
        = ((db.grade_cells.filter (fun c =>
            c.notebook_id == sn.notebook_id)).map
              (fun c => c.max_score)).sum := by
      unfold Notebook.max_score
      have hfeq : db.grade_cells.filter (fun c => c.notebook_id == nb0.id)
          = db.grade_cells.filter (fun c => c.notebook_id == sn.notebook_id) := by
        apply List.filter_congr
        intro c _
        rw [hkey]
      rw [hfeq]
    have hmax : SubmittedNotebook.max_score db sn
        = some (((snGradePairs db sn).map (fun p => p.2.max_score)).sum) := by
      unfold SubmittedNotebook.max_score
      rw [hfind1, snGradePairs_max_eq db sn hperm]
      exact congrArg some hmaxinner
    have hcodescore : (snTypeScores db sn CellType.code).map (fun x => x.1)
        = some (SubmittedNotebook.code_score db sn) := by
      rw [htype CellType.code hcode]
      exact congrArg some (snGradePairsOfType_score_eq db sn CellType.code)
    have hwrittenscore : (snTypeScores db sn CellType.markdown).map
          (fun x => x.1)
        = some (SubmittedNotebook.written_score db sn) := by
      rw [htype CellType.markdown hmd]
      exact congrArg some (snGradePairsOfType_score_eq db sn CellType.markdown)
    have hcutcode : (db.grade_cells.filter (fun c =>
          c.notebook_id == sn.notebook_id)).filter
          (fun c => c.cell_type == CellType.code)
        = db.grade_cells.filter (fun c =>
            c.notebook_id == nb0.id && (c.cell_type == CellType.code)) := by
      rw [List.filter_filter]
      apply List.filter_congr
      intro c _
      rw [hkey]
      exact Bool.and_comm _ _
    have hcutmd : (db.grade_cells.filter (fun c =>
          c.notebook_id == sn.notebook_id)).filter
          (fun c => c.cell_type == CellType.markdown)
        = db.grade_cells.filter (fun c =>
            c.notebook_id == nb0.id && (c.cell_type == CellType.markdown)) := by
      rw [List.filter_filter]
      apply List.filter_congr
      intro c _
      rw [hkey]
      exact Bool.and_comm _ _
    have hmaxcode : (snTypeScores db sn CellType.code).map (fun x => x.2)
        = SubmittedNotebook.max_code_score db sn := by
      rw [htype CellType.code hcode]
      unfold SubmittedNotebook.max_code_score
      rw [hfind2]
      show some (((snGradePairsOfType db sn CellType.code).map
          (fun p => p.2.max_score)).sum)
        = some (Notebook.max_code_score db nb0)
      refine congrArg some ?_
      unfold Notebook.max_code_score
      rw [snGradePairsOfType_max_eq db sn CellType.code hperm, hcutcode]
    have hmaxwritten : (snTypeScores db sn CellType.markdown).map
          (fun x => x.2)
        = SubmittedNotebook.max_written_score db sn := by
      rw [htype CellType.markdown hmd]
      unfold SubmittedNotebook.max_written_score
      rw [hfind2]
      show some (((snGradePairsOfType db sn CellType.markdown).map
          (fun p => p.2.max_score)).sum)
        = some (Notebook.max_written_score db nb0)
      refine congrArg some ?_
      unfold Notebook.max_written_score
      rw [snGradePairsOfType_max_eq db sn CellType.markdown hperm, hcutmd]
    unfold SubmittedNotebook.to_dict
    simp only [SubNbDictRow.mk.injEq]
    refine ⟨trivial, snGradePairs_score_eq db sn hgcid hgcellsn, hmax.symm,
      hcodescore, hmaxcode, hwrittenscore, hmaxwritten, ?_, ?_⟩ <;> rfl

/-- A well-formed database with one code cell and one markdown cell, one
student and one fully graded submission, used to instantiate the amended
C10 theorem. -/
def exDbC10w : DB :=
  { assignments := [⟨1, 10, none⟩]
    notebooks := [⟨2, 20, 1⟩]
    grade_cells := [⟨3, 30, 2, CellType.code, 2⟩,
                    ⟨4, 31, 3, CellType.markdown, 2⟩]
    solution_cells := []
    students := [⟨40, none, none, none⟩]
    submitted_assignments := [⟨5, 1, 40, none, none⟩]
    submitted_notebooks := [⟨6, 2, 5⟩]
    grades := [⟨7, 3, 6, some 2, none⟩, ⟨8, 4, 6, none, some 1⟩]
    comments := []
    next_id := 9 }

theorem bulk_dicts_match_witness :
    Gradebook.student_dicts exDbC10w
        = exDbC10w.students.map (Student.to_dict exDbC10w) ∧
    Gradebook.notebook_submission_dicts exDbC10w 20 10
      = (Gradebook.notebook_submissions exDbC10w 20 10).map
          (SubmittedNotebook.to_dict exDbC10w) :=
  bulk_dicts_match exDbC10w 20 10 (by decide) (by decide) (by decide)
    (by decide) (by decide) (by decide) (by decide) (by decide) (by decide)
    (by
      intro sn hsn
      have hl : Gradebook.notebook_submissions exDbC10w 20 10
          = [⟨6, 2, 5⟩] := by decide
      rw [hl] at hsn
      have he := List.mem_singleton.mp hsn
      subst he
      exact ⟨List.Perm.refl _, by decide, by decide⟩)
